import Mathlib

/- Verification of the BlinkSpeak gesture interpretation engine
   (src/pages/BlinkDetector.tsx, component GestureDetection).

   Modelling conventions:
   * JS numbers are modelled as exact rationals (Rat); timestamps as Int
     (milliseconds, as produced by Date.now()).
   * Math.sqrt is modelled as an abstract parameter sqrtQ : Rat -> Rat.
     None of the verified properties depend on numeric values of square
     roots, only on how the computed distances flow through the control
     logic, so every theorem is stated for an arbitrary sqrtQ and witnesses
     instantiate it with a concrete function.
   * The mutable gestureStateRef record, the gestureTimeoutRef cell and the
     outstanding setTimeout callbacks are modelled as one explicit state
     record EngineState.  Scheduled callbacks are kept in explicit lists:
     holdTimers for the confirmation timeout created in
     processGestureResponse, checkTimers for the deferred single-blink
     check created in detectBlink.  clearTimeout removes the entry whose id
     is stored in the ref; firing a timer is an explicit step (fireHold /
     fireCheck) that runs the callback body at the scheduled time.
   * rawLog records every call to processGestureResponse (the raw yes/no
     candidates submitted to the confirmation gate), finalLog every
     confirmed response delivered by handleGestureResponse, and blinkEvents
     every completed blink that is counted as genuine (the
     blinkHistory.push site).  These three fields are write-only
     instrumentation: no modelled code branches on them.
   * React state (activeGesture, isDetectionActive) is carried in
     EngineState.  In the source the detect loop and the timer callbacks
     it creates read isDetectionActive as a closure capture from the
     render in which the loop started, and setIsDetectionActive never
     updates those captures.  Two semantics are therefore provided:
     onFrame / handleGestureResponse / fireHold read the field's current
     value, which coincides with the capture as long as no
     setIsDetectionActive write has intervened (the situations the
     theorems using them describe); stepEvStale / fireHoldStale model a
     RUNNING session faithfully, where the captured value is true for the
     session's whole life, so frames keep being processed and
     finalizations keep being delivered even after the current value has
     been set to false.  Canvas drawing, speech synthesis and the rest of
     the UI are I/O and are not modelled.  Timer callbacks that read the
     gesture state object are modelled as reading the current state; this
     agrees with the source whenever the state object has not been
     wholesale replaced between scheduling and firing, and the theorems
     below only rely on it in such situations.
-/

namespace BlinkSpeak

/-- The yes/no response values. -/
inductive Resp
  | yes
  | no
deriving DecidableEq

/-- The four gesture types of the GestureType union. -/
inductive GestureType
  | blink
  | smile
  | nod
  | handWave
deriving DecidableEq

/-- One face landmark as delivered by the tracker (normalized coordinates). -/
structure Landmark where
  x : ℚ
  y : ℚ
  z : ℚ
deriving DecidableEq

/-- One blendshape category with its score. -/
structure Blendshape where
  categoryName : String
  score : ℚ
deriving DecidableEq

/-- The per-tick face measurements consumed by the detectors: the
blendshape categories of faceBlendshapes[0] and the landmark list of
faceLandmarks[0]. -/
structure Frame where
  blendshapes : List Blendshape
  landmarks : List Landmark
deriving DecidableEq

/-- A 2-D point (the Point interface of the source). -/
structure Point where
  x : ℚ
  y : ℚ
deriving DecidableEq

/-- A raw candidate: one call of processGestureResponse. -/
structure RawCandidate where
  value : Resp
  gestureType : GestureType
  timestampMs : ℤ
deriving DecidableEq

/-- The confirmation timeout scheduled by processGestureResponse: the
setTimeout callback that will call handleGestureResponse with the captured
response value. -/
structure HoldTimer where
  id : ℕ
  fireAt : ℤ
  resp : Resp
  gt : GestureType
deriving DecidableEq

/-- The deferred single-blink check scheduled inside detectBlink. -/
structure CheckTimer where
  id : ℕ
  fireAt : ℤ
deriving DecidableEq

/-- The complete engine state: the fields of gestureStateRef.current, the
relevant React state, the timeout ref and the outstanding timers, plus
write-only instrumentation logs. -/
structure EngineState where
  isBlinking : Bool
  blinkStartTime : ℤ
  blinkCounter : ℕ
  lastBlinkTime : ℤ
  blinkHistory : List ℤ
  pendingBlinkResponse : Option Resp
  smileStartTime : ℤ
  smileDetected : Bool
  neutralMouthWidth : ℚ
  isSmiling : Bool
  pendingSmileResponse : Option Resp
  nodStartTime : ℤ
  nodDetected : Bool
  headPitch : ℚ
  neutralHeadPitch : ℚ
  nodCount : ℕ
  lastNodTime : ℤ
  isNodding : Bool
  pendingNodResponse : Option Resp
  waveStartTime : ℤ
  waveDetected : Bool
  handPositionHistory : List Point
  waveCount : ℕ
  lastWaveTime : ℤ
  isWaving : Bool
  pendingWaveResponse : Option Resp
  activeGesture : GestureType
  isDetectionActive : Bool
  gestureTimeoutRef : Option ℕ
  holdTimers : List HoldTimer
  checkTimers : List CheckTimer
  nextId : ℕ
  rawLog : List RawCandidate
  finalLog : List Resp
  blinkEvents : List ℤ
deriving DecidableEq

/-- The initial engine state: the initializer of gestureStateRef, with the
default active gesture blink, detection inactive, and no timers.  Browser
timer ids are positive, so fresh ids start at 1. -/
def initEngine : EngineState where
  isBlinking := false
  blinkStartTime := 0
  blinkCounter := 0
  lastBlinkTime := 0
  blinkHistory := []
  pendingBlinkResponse := none
  smileStartTime := 0
  smileDetected := false
  neutralMouthWidth := 0
  isSmiling := false
  pendingSmileResponse := none
  nodStartTime := 0
  nodDetected := false
  headPitch := 0
  neutralHeadPitch := 0
  nodCount := 0
  lastNodTime := 0
  isNodding := false
  pendingNodResponse := none
  waveStartTime := 0
  waveDetected := false
  handPositionHistory := []
  waveCount := 0
  lastWaveTime := 0
  isWaving := false
  pendingWaveResponse := none
  activeGesture := .blink
  isDetectionActive := false
  gestureTimeoutRef := none
  holdTimers := []
  checkTimers := []
  nextId := 1
  rawLog := []
  finalLog := []
  blinkEvents := []

/-- Euclidean distance between two points (calculateDistance), with
Math.sqrt abstracted as sqrtQ. -/
def calculateDistance (sqrtQ : ℚ → ℚ) (point1 point2 : Point) : ℚ :=
  sqrtQ ((point2.x - point1.x) ^ 2 + (point2.y - point1.y) ^ 2)

/-- The clearTimeout(gestureTimeoutRef.current) guarded by the JS
truthiness test: removes the referenced hold timer from the outstanding
timers (ids are positive, so the guard is just presence of the ref). -/
def clearGestureTimeout (s : EngineState) : EngineState :=
  { s with holdTimers :=
      match s.gestureTimeoutRef with
      | some i => s.holdTimers.filter (fun tm => tm.id ≠ i)
      | none => s.holdTimers }

/-- The switch statement of processGestureResponse that stores the pending
response in the field belonging to the gesture type. -/
def setPending (gt : GestureType) (r : Option Resp) (s : EngineState) : EngineState :=
  match gt with
  | .blink => { s with pendingBlinkResponse := r }
  | .smile => { s with pendingSmileResponse := r }
  | .nod => { s with pendingNodResponse := r }
  | .handWave => { s with pendingWaveResponse := r }

/-- Read the pending response field of a gesture type. -/
def pendingOf (gt : GestureType) (s : EngineState) : Option Resp :=
  match gt with
  | .blink => s.pendingBlinkResponse
  | .smile => s.pendingSmileResponse
  | .nod => s.pendingNodResponse
  | .handWave => s.pendingWaveResponse

/-- processGestureResponse: clears any existing confirmation timeout, sets
the pending response for the submitting gesture, and schedules a new
800 ms hold timer that captures the submitted response.  The submission is
recorded in rawLog. -/
def processGestureResponse (response : Resp) (gestureType : GestureType)
    (now : ℤ) (s : EngineState) : EngineState :=
  let s1 := setPending gestureType (some response) (clearGestureTimeout s)
  { s1 with
    holdTimers := s1.holdTimers ++ [⟨s1.nextId, now + 800, response, gestureType⟩]
    gestureTimeoutRef := some s1.nextId
    nextId := s1.nextId + 1
    rawLog := s1.rawLog ++ [⟨response, gestureType, now⟩] }

/-- handleGestureResponse with the guard reading the current value of
isDetectionActive: if detection is active, show the confirmed response
(recorded in finalLog) and deactivate detection.  In the source the guard
reads a stale closure capture; this current-value reading coincides with
it as long as no setIsDetectionActive write has intervened since the
capture, which is the case in the theorems that use it.  The semantics of
a running session's callbacks, whose capture is permanently true, is
handleGestureResponseStale below.  The 3 s UI timeout that hides the
response again is not modelled. -/
def handleGestureResponse (response : Resp) (s : EngineState) : EngineState :=
  if s.isDetectionActive then
    { s with finalLog := s.finalLog ++ [response], isDetectionActive := false }
  else s

/-- Fire the confirmation timeout with id i (if it is still outstanding):
run handleGestureResponse with the captured response, then reset all four
pending responses. -/
def fireHold (i : ℕ) (s : EngineState) : EngineState :=
  match s.holdTimers.find? (fun tm => tm.id = i) with
  | none => s
  | some tm =>
    let s1 := handleGestureResponse tm.resp s
    { s1 with
      holdTimers := s1.holdTimers.filter (fun t => t.id ≠ i)
      pendingBlinkResponse := none
      pendingSmileResponse := none
      pendingNodResponse := none
      pendingWaveResponse := none }

/-- Score lookup: blendshapes.find(b => b.categoryName === name)?.score || 0. -/
def scoreOf (bs : List Blendshape) (name : String) : ℚ :=
  match bs.find? (fun b => b.categoryName = name) with
  | some b => b.score
  | none => 0

/-- The averaged eye-blink score computed at the top of detectBlink. -/
def avgBlinkOf (f : Frame) : ℚ :=
  (scoreOf f.blendshapes "eyeBlinkLeft" + scoreOf f.blendshapes "eyeBlinkRight") / 2

/-- The body of detectBlink after the blendshape scores have been averaged.
BLINK_THRESHOLD = 0.5, minDuration = 30, maxDuration = 350,
doubleBlinkWindow = 500, confirmationDelay = 800 (detectionConfig.blink). -/
def blinkCore (avgBlink : ℚ) (now : ℤ) (s : EngineState) : EngineState :=
  if avgBlink > 1/2 ∧ s.isBlinking = false then
    { s with isBlinking := true, blinkStartTime := now }
  else if avgBlink < 1/2 ∧ s.isBlinking = true then
    let blinkDuration := now - s.blinkStartTime
    let s0 := { s with isBlinking := false }
    if blinkDuration > 30 ∧ blinkDuration < 350 then
      let hist := (s0.blinkHistory ++ [now]).filter (fun time => now - time < 2000)
      let s1 := { s0 with blinkHistory := hist, blinkEvents := s0.blinkEvents ++ [now] }
      if hist.length ≥ 2 ∧
          hist.getD (hist.length - 1) 0 - hist.getD (hist.length - 2) 0 < 500 then
        let s2 := processGestureResponse .no .blink now s1
        { s2 with blinkHistory := [] }
      else
        let s2 :=
          if hist.length = 1 then
            { s1 with
              checkTimers := s1.checkTimers ++ [⟨s1.nextId, now + 800⟩]
              nextId := s1.nextId + 1 }
          else s1
        { s2 with lastBlinkTime := now }
    else s0
  else s

/-- detectBlink: average the two eye-blink scores (a missing category reads
as score 0) and run the edge/duration/double-blink logic. -/
def detectBlink (f : Frame) (now : ℤ) (s : EngineState) : EngineState :=
  blinkCore (avgBlinkOf f) now s

/-- Fire the deferred single-blink check with id i (if still outstanding):
if the history still holds exactly one entry and no blink response is
pending, submit yes and clear the history. -/
def fireCheck (i : ℕ) (s : EngineState) : EngineState :=
  match s.checkTimers.find? (fun tm => tm.id = i) with
  | none => s
  | some tm =>
    let s1 := { s with checkTimers := s.checkTimers.filter (fun t => t.id ≠ i) }
    if s1.blinkHistory.length = 1 ∧ s1.pendingBlinkResponse = none then
      let s2 := processGestureResponse .yes .blink tm.fireAt s1
      { s2 with blinkHistory := [] }
    else s1

/-- The mouth width measured by detectSmile: the distance between the
mouth-corner landmarks 61 and 291, or none when either is missing. -/
def mouthWidthOf (sqrtQ : ℚ → ℚ) (f : Frame) : Option ℚ :=
  match f.landmarks.get? 61, f.landmarks.get? 291 with
  | some mouthLeft, some mouthRight =>
    some (calculateDistance sqrtQ ⟨mouthLeft.x, mouthLeft.y⟩ ⟨mouthRight.x, mouthRight.y⟩)
  | _, _ => none

/-- The body of detectSmile once the mouth width has been measured.
smile.thresholdMultiplier = 1.15, smile.duration = 1200
(detectionConfig.smile). -/
def smileCore (mouthWidth : ℚ) (now : ℤ) (s : EngineState) : EngineState :=
  if s.neutralMouthWidth = 0 then
    { s with neutralMouthWidth := mouthWidth }
  else
    let smileThreshold := s.neutralMouthWidth * (115 / 100)
    if mouthWidth > smileThreshold ∧ s.isSmiling = false then
      { s with isSmiling := true, smileStartTime := now }
    else if mouthWidth > smileThreshold ∧ s.isSmiling = true then
      if now - s.smileStartTime ≥ 1200 ∧ s.pendingSmileResponse = none then
        processGestureResponse .yes .smile now s
      else s
    else
      let s1 :=
        if s.isSmiling = true ∧ s.pendingSmileResponse = none then
          processGestureResponse .no .smile now s
        else s
      { s1 with isSmiling := false }

/-- detectSmile: return unchanged when a mouth-corner landmark is missing,
otherwise run the baseline/threshold/duration logic on the measured width. -/
def detectSmile (sqrtQ : ℚ → ℚ) (f : Frame) (now : ℤ) (s : EngineState) : EngineState :=
  match mouthWidthOf sqrtQ f with
  | some mouthWidth => smileCore mouthWidth now s
  | none => s

/-- The head-pitch proxy measured by detectNod: |noseTip.y - forehead.y|
from landmarks 1 and 10, or none when either is missing. -/
def pitchOf (f : Frame) : Option ℚ :=
  match f.landmarks.get? 1, f.landmarks.get? 10 with
  | some noseTip, some forehead => some |noseTip.y - forehead.y|
  | _, _ => none

/-- The rising/falling-edge statements of detectNod: a rising edge above
the threshold counts a nod, falling below 0.9 × threshold clears the
nodding flag. -/
def nodFlag (verticalDistance nodThreshold : ℚ) (now : ℤ) (s : EngineState) : EngineState :=
  if verticalDistance > nodThreshold ∧ s.isNodding = false then
    { s with isNodding := true, nodCount := s.nodCount + 1, lastNodTime := now }
  else if verticalDistance ≤ nodThreshold * (9 / 10) then
    { s with isNodding := false }
  else s

/-- The cooldown check of detectNod: once the cooldown has elapsed with a
positive count and no pending nod response, emit yes for one nod and no
for two or more, then reset the count. -/
def nodDecide (now : ℤ) (s1 : EngineState) : EngineState :=
  if s1.nodCount > 0 ∧ now - s1.lastNodTime > 600 ∧ s1.pendingNodResponse = none then
    let s2 :=
      if s1.nodCount = 1 then processGestureResponse .yes .nod now s1
      else processGestureResponse .no .nod now s1
    { s2 with nodCount := 0 }
  else s1

/-- The body of detectNod once the vertical distance has been measured.
nod.thresholdMultiplier = 1.2, nod.cooldown = 600 (detectionConfig.nod). -/
def nodCore (verticalDistance : ℚ) (now : ℤ) (s : EngineState) : EngineState :=
  if s.neutralHeadPitch = 0 then
    { s with neutralHeadPitch := verticalDistance }
  else
    nodDecide now (nodFlag verticalDistance (s.neutralHeadPitch * (12 / 10)) now s)

/-- detectNod: return unchanged when the nose-tip or forehead landmark is
missing, otherwise run the nod counting logic. -/
def detectNod (f : Frame) (now : ℤ) (s : EngineState) : EngineState :=
  match pitchOf f with
  | some verticalDistance => nodCore verticalDistance now s
  | none => s

/-- The face-center proxy point tracked by detectHandWave: the midpoint of
the face-edge landmarks 234 and 454, or none when either is missing. -/
def wavePointOf (f : Frame) : Option Point :=
  match f.landmarks.get? 234, f.landmarks.get? 454 with
  | some faceLeft, some faceRight =>
    some ⟨(faceLeft.x + faceRight.x) / 2, (faceLeft.y + faceRight.y) / 2⟩
  | _, _ => none

/-- Sum of consecutive point-to-point distances over the position history
(the totalMovement loop of detectHandWave). -/
def totalDist (sqrtQ : ℚ → ℚ) : List Point → ℚ
  | p :: q :: rest => calculateDistance sqrtQ p q + totalDist sqrtQ (q :: rest)
  | _ => 0

/-- The movement threshold statements of detectHandWave: crossing
WAVE_THRESHOLD on the rising edge counts a wave, falling below half of it
clears the waving flag. -/
def waveFlag (totalMovement : ℚ) (now : ℤ) (s0 : EngineState) : EngineState :=
  if totalMovement > 6/100 ∧ s0.isWaving = false then
    { s0 with isWaving := true, waveCount := s0.waveCount + 1, lastWaveTime := now }
  else if totalMovement < 6/100 * (1/2) then
    { s0 with isWaving := false }
  else s0

/-- The cooldown check of detectHandWave: once the cooldown has elapsed
with a positive count and no pending wave response, emit yes for one wave
and no for two or more, then reset the count and clear the history. -/
def waveDecide (now : ℤ) (s1 : EngineState) : EngineState :=
  if s1.waveCount > 0 ∧ now - s1.lastWaveTime > 600 ∧ s1.pendingWaveResponse = none then
    let s2 :=
      if s1.waveCount = 1 then processGestureResponse .yes .handWave now s1
      else processGestureResponse .no .handWave now s1
    { s2 with waveCount := 0, handPositionHistory := [] }
  else s1

/-- The body of detectHandWave once the proxy point has been computed.
handWave.threshold = 0.06, handWave.cooldown = 600, handWave.historySize
= 15 (detectionConfig.handWave). -/
def waveCore (sqrtQ : ℚ → ℚ) (currentPosition : Point) (now : ℤ)
    (s : EngineState) : EngineState :=
  let hist0 := s.handPositionHistory ++ [currentPosition]
  let hist := if hist0.length > 15 then hist0.drop (hist0.length - 15) else hist0
  let s0 := { s with handPositionHistory := hist }
  if hist.length < 5 then s0
  else waveDecide now (waveFlag (totalDist sqrtQ hist) now s0)

/-- detectHandWave: return unchanged when a face-edge landmark is missing,
otherwise push the proxy point and run the movement/cooldown logic. -/
def detectHandWave (sqrtQ : ℚ → ℚ) (f : Frame) (now : ℤ) (s : EngineState) : EngineState :=
  match wavePointOf f with
  | some currentPosition => waveCore sqrtQ currentPosition now s
  | none => s

/-- One face-detected tick of the detect loop in startGestureDetection:
all four gesture detections are run on the frame (the canvas drawing that
follows, the only consumer of activeGesture, is I/O and not modelled). -/
def processFaceFrame (sqrtQ : ℚ → ℚ) (f : Frame) (now : ℤ) (s : EngineState) : EngineState :=
  detectHandWave sqrtQ f now (detectNod f now (detectSmile sqrtQ f now (detectBlink f now s)))

/-- One tick of the detect loop with the guard reading the current value
of isDetectionActive.  In the source the guard reads a stale closure
capture, so this definition matches the source only while the captured
and current values agree (e.g. on the first frames of a fresh session);
a running session, whose capture stays true forever, is modelled by
stepEvStale, where every face frame is processed. -/
def onFrame (sqrtQ : ℚ → ℚ) (f : Frame) (now : ℤ) (s : EngineState) : EngineState :=
  if s.isDetectionActive then processFaceFrame sqrtQ f now s else s

/-- Reset every gestureStateRef field to its initial value (the object
literal assigned on gesture switch and on question selection). -/
def resetGestureFields (s : EngineState) : EngineState :=
  { s with
    isBlinking := false
    blinkStartTime := 0
    blinkCounter := 0
    lastBlinkTime := 0
    blinkHistory := []
    pendingBlinkResponse := none
    smileStartTime := 0
    smileDetected := false
    neutralMouthWidth := 0
    isSmiling := false
    pendingSmileResponse := none
    nodStartTime := 0
    nodDetected := false
    headPitch := 0
    neutralHeadPitch := 0
    nodCount := 0
    lastNodTime := 0
    isNodding := false
    pendingNodResponse := none
    waveStartTime := 0
    waveDetected := false
    handPositionHistory := []
    waveCount := 0
    lastWaveTime := 0
    isWaving := false
    pendingWaveResponse := none }

/-- The gesture-menu onClick handler: set the new active gesture and
replace gestureStateRef with a fresh initial record.  Note that it does
not touch gestureTimeoutRef or any outstanding timer. -/
def switchGesture (g : GestureType) (s : EngineState) : EngineState :=
  resetGestureFields { s with activeGesture := g }

/-- handleQuestionSelect (and handleCustomQuestion), engine-relevant part:
clear the confirmation timeout, reset the gesture state for the new
question, and activate detection. -/
def selectQuestion (s : EngineState) : EngineState :=
  resetGestureFields { (clearGestureTimeout s) with isDetectionActive := true }

/-- The events that can reach the confirmation gate: a submission (a call
of processGestureResponse) or the firing of a hold timer. -/
inductive GateEv
  | gsubmit (t : ℤ) (r : Resp) (g : GestureType)
  | gfire (i : ℕ)
deriving DecidableEq

/-- Run one gate event. -/
def stepGate (s : EngineState) : GateEv → EngineState
  | .gsubmit t r g => processGestureResponse r g t s
  | .gfire i => fireHold i s

/-- Run a sequence of gate events. -/
def runGate (s : EngineState) (evs : List GateEv) : EngineState :=
  evs.foldl stepGate s

/-- Whether a gate event is a submission. -/
def GateEv.isSubmit : GateEv → Prop
  | .gsubmit _ _ _ => True
  | .gfire _ => False

/-- The engine-level events used by the temporal claims: a detect-loop
tick with face measurements, the firing of a confirmation timeout, and the
firing of a deferred blink check. -/
inductive Ev
  | evFrame (f : Frame) (t : ℤ)
  | evFireHold (i : ℕ)
  | evFireCheck (i : ℕ)
deriving DecidableEq

/-- handleGestureResponse as executed by the closures of a running
detection session.  In the source the guard reads the isDetectionActive
const captured when the detect loop and its callbacks were created; for
the loop to be running at all that capture is true, and the later
setIsDetectionActive(false) produces a new render whose value those
closures never observe.  So during a running session the guard always
passes: the response is shown (finalLog) and the deactivation is written
to the React state (the isDetectionActive field), where it remains
invisible to the session's own closures. -/
def handleGestureResponseStale (response : Resp) (s : EngineState) : EngineState :=
  { s with finalLog := s.finalLog ++ [response], isDetectionActive := false }

/-- Firing the confirmation timeout of a running session: the callback
body with the stale-capture guard semantics of
handleGestureResponseStale. -/
def fireHoldStale (i : ℕ) (s : EngineState) : EngineState :=
  match s.holdTimers.find? (fun tm => tm.id = i) with
  | none => s
  | some tm =>
    let s1 := handleGestureResponseStale tm.resp s
    { s1 with
      holdTimers := s1.holdTimers.filter (fun t => t.id ≠ i)
      pendingBlinkResponse := none
      pendingSmileResponse := none
      pendingNodResponse := none
      pendingWaveResponse := none }

/-- Run one event of a running detection session.  Face frames are always
processed: the loop's own isDetectionActive guard reads the stale capture
(true for a running session), never the current React value, so
finalization does not stop the loop. -/
def stepEvStale (sqrtQ : ℚ → ℚ) (s : EngineState) : Ev → EngineState
  | .evFrame f t => processFaceFrame sqrtQ f t s
  | .evFireHold i => fireHoldStale i s
  | .evFireCheck i => fireCheck i s

/-- Run a sequence of events of a running detection session. -/
def runEvsStale (sqrtQ : ℚ → ℚ) (s : EngineState) (evs : List Ev) : EngineState :=
  evs.foldl (stepEvStale sqrtQ) s

/-- Well-formedness of the confirmation-gate bookkeeping: every
outstanding hold timer is the one referenced by gestureTimeoutRef, and at
most one is outstanding.  It holds initially and is preserved by every
gate event. -/
def GateWf (s : EngineState) : Prop :=
  (∀ tm ∈ s.holdTimers, s.gestureTimeoutRef = some tm.id) ∧ s.holdTimers.length ≤ 1

theorem setPending_holdTimers (gt : GestureType) (r : Option Resp) (s : EngineState) :
    (setPending gt r s).holdTimers = s.holdTimers := by
  cases gt <;> rfl

theorem setPending_nextId (gt : GestureType) (r : Option Resp) (s : EngineState) :
    (setPending gt r s).nextId = s.nextId := by
  cases gt <;> rfl

theorem setPending_gestureTimeoutRef (gt : GestureType) (r : Option Resp) (s : EngineState) :
    (setPending gt r s).gestureTimeoutRef = s.gestureTimeoutRef := by
  cases gt <;> rfl

theorem setPending_isDetectionActive (gt : GestureType) (r : Option Resp) (s : EngineState) :
    (setPending gt r s).isDetectionActive = s.isDetectionActive := by
  cases gt <;> rfl

theorem setPending_finalLog (gt : GestureType) (r : Option Resp) (s : EngineState) :
    (setPending gt r s).finalLog = s.finalLog := by
  cases gt <;> rfl

theorem setPending_rawLog (gt : GestureType) (r : Option Resp) (s : EngineState) :
    (setPending gt r s).rawLog = s.rawLog := by
  cases gt <;> rfl

theorem pendingOf_setPending (gt : GestureType) (r : Option Resp) (s : EngineState) :
    pendingOf gt (setPending gt r s) = r := by
  cases gt <;> rfl

theorem clearGestureTimeout_nextId (s : EngineState) :
    (clearGestureTimeout s).nextId = s.nextId := by
  cases h : s.gestureTimeoutRef <;> simp [clearGestureTimeout, h]

theorem clearGestureTimeout_gestureTimeoutRef (s : EngineState) :
    (clearGestureTimeout s).gestureTimeoutRef = s.gestureTimeoutRef := by
  cases h : s.gestureTimeoutRef <;> simp [clearGestureTimeout, h]

theorem clearGestureTimeout_isDetectionActive (s : EngineState) :
    (clearGestureTimeout s).isDetectionActive = s.isDetectionActive := by
  cases h : s.gestureTimeoutRef <;> simp [clearGestureTimeout, h]

theorem clearGestureTimeout_finalLog (s : EngineState) :
    (clearGestureTimeout s).finalLog = s.finalLog := by
  cases h : s.gestureTimeoutRef <;> simp [clearGestureTimeout, h]

theorem clearGestureTimeout_rawLog (s : EngineState) :
    (clearGestureTimeout s).rawLog = s.rawLog := by
  cases h : s.gestureTimeoutRef <;> simp [clearGestureTimeout, h]

/-- Under the gate invariant, clearing the confirmation timeout leaves no
outstanding hold timer. -/
theorem clearGestureTimeout_holdTimers (s : EngineState) (h : GateWf s) :
    (clearGestureTimeout s).holdTimers = [] := by
  rcases h with ⟨h1, -⟩
  cases href : s.gestureTimeoutRef with
  | none =>
    simp only [clearGestureTimeout, href]
    exact List.eq_nil_iff_forall_not_mem.mpr fun tm hm => by
      have := h1 tm hm
      rw [href] at this
      exact Option.noConfusion this
  | some i =>
    simp only [clearGestureTimeout, href]
    refine List.filter_eq_nil_iff.mpr fun tm hm => ?_
    have := h1 tm hm
    rw [href] at this
    have hid : tm.id = i := (Option.some_inj.mp this).symm
    simp [hid]

/-- Under the gate invariant, a submission replaces the outstanding hold
timer with a single fresh one carrying the submitted value. -/
theorem processGestureResponse_holdTimers (r : Resp) (g : GestureType) (t : ℤ)
    (s : EngineState) (h : GateWf s) :
    (processGestureResponse r g t s).holdTimers = [⟨s.nextId, t + 800, r, g⟩] := by
  simp [processGestureResponse, setPending_holdTimers, setPending_nextId,
    clearGestureTimeout_holdTimers s h, clearGestureTimeout_nextId]

theorem processGestureResponse_nextId (r : Resp) (g : GestureType) (t : ℤ) (s : EngineState) :
    (processGestureResponse r g t s).nextId = s.nextId + 1 := by
  simp [processGestureResponse, setPending_nextId, clearGestureTimeout_nextId]

theorem processGestureResponse_gestureTimeoutRef (r : Resp) (g : GestureType) (t : ℤ)
    (s : EngineState) :
    (processGestureResponse r g t s).gestureTimeoutRef = some s.nextId := by
  simp [processGestureResponse, setPending_nextId, clearGestureTimeout_nextId]

theorem processGestureResponse_isDetectionActive (r : Resp) (g : GestureType) (t : ℤ)
    (s : EngineState) :
    (processGestureResponse r g t s).isDetectionActive = s.isDetectionActive := by
  simp [processGestureResponse, setPending_isDetectionActive, clearGestureTimeout_isDetectionActive]

theorem processGestureResponse_finalLog (r : Resp) (g : GestureType) (t : ℤ)
    (s : EngineState) :
    (processGestureResponse r g t s).finalLog = s.finalLog := by
  simp [processGestureResponse, setPending_finalLog, clearGestureTimeout_finalLog]

theorem processGestureResponse_rawLog (r : Resp) (g : GestureType) (t : ℤ)
    (s : EngineState) :
    (processGestureResponse r g t s).rawLog = s.rawLog ++ [⟨r, g, t⟩] := by
  simp [processGestureResponse, setPending_rawLog, clearGestureTimeout_rawLog]

/-- A submission leaves the gate invariant intact. -/
theorem gateWf_processGestureResponse (r : Resp) (g : GestureType) (t : ℤ)
    (s : EngineState) (h : GateWf s) :
    GateWf (processGestureResponse r g t s) := by
  constructor
  · intro tm hm
    rw [processGestureResponse_holdTimers r g t s h] at hm
    rw [processGestureResponse_gestureTimeoutRef]
    simp at hm
    rw [hm]
  · rw [processGestureResponse_holdTimers r g t s h]
    simp

/-- Firing a hold timer only removes timers. -/
theorem fireHold_holdTimers_sublist (i : ℕ) (s : EngineState) :
    (fireHold i s).holdTimers.Sublist s.holdTimers := by
  unfold fireHold
  cases h : s.holdTimers.find? (fun tm => tm.id = i) with
  | none => simp
  | some tm =>
    simp only [handleGestureResponse]
    split <;> exact List.filter_sublist _

theorem fireHold_gestureTimeoutRef (i : ℕ) (s : EngineState) :
    (fireHold i s).gestureTimeoutRef = s.gestureTimeoutRef := by
  unfold fireHold
  cases h : s.holdTimers.find? (fun tm => tm.id = i) with
  | none => rfl
  | some tm =>
    simp only [handleGestureResponse]
    split <;> rfl

/-- Firing a hold timer leaves the gate invariant intact. -/
theorem gateWf_fireHold (i : ℕ) (s : EngineState) (h : GateWf s) :
    GateWf (fireHold i s) := by
  rcases h with ⟨h1, h2⟩
  constructor
  · intro tm hm
    rw [fireHold_gestureTimeoutRef]
    exact h1 tm ((fireHold_holdTimers_sublist i s).subset hm)
  · exact le_trans (fireHold_holdTimers_sublist i s).length_le h2

/-- Every sequence of gate events preserves the gate invariant. -/
theorem gateWf_runGate (evs : List GateEv) (s : EngineState) (h : GateWf s) :
    GateWf (runGate s evs) := by
  induction evs generalizing s with
  | nil => exact h
  | cons e rest ih =>
    apply ih
    cases e with
    | gsubmit t r g => exact gateWf_processGestureResponse r g t s h
    | gfire i => exact gateWf_fireHold i s h

/-- Submissions do not change detection activity or the final log. -/
theorem runGate_submits_active_finalLog (evs : List GateEv) (s : EngineState)
    (h : ∀ e ∈ evs, e.isSubmit) :
    (runGate s evs).isDetectionActive = s.isDetectionActive ∧
      (runGate s evs).finalLog = s.finalLog := by
  induction evs generalizing s with
  | nil => exact ⟨rfl, rfl⟩
  | cons e rest ih =>
    cases e with
    | gsubmit t r g =>
      have := ih (processGestureResponse r g t s) (fun e he => h e (List.mem_cons_of_mem _ he))
      rw [runGate] at *
      simp only [List.foldl_cons, stepGate] at *
      rw [this.1, this.2, processGestureResponse_isDetectionActive,
        processGestureResponse_finalLog]
      exact ⟨rfl, rfl⟩
    | gfire i => exact absurd (h _ (List.mem_cons_self _ _)) (by simp [GateEv.isSubmit])

/-- Firing the unique outstanding hold timer while detection is active
finalizes its value, clears all pending responses and removes the timer. -/
theorem fireHold_singleton (tm : HoldTimer) (s : EngineState)
    (h : s.holdTimers = [tm]) (hact : s.isDetectionActive = true) :
    (fireHold tm.id s).finalLog = s.finalLog ++ [tm.resp] ∧
      (fireHold tm.id s).holdTimers = [] ∧
      (fireHold tm.id s).pendingBlinkResponse = none ∧
      (fireHold tm.id s).pendingSmileResponse = none ∧
      (fireHold tm.id s).pendingNodResponse = none ∧
      (fireHold tm.id s).pendingWaveResponse = none ∧
      (fireHold tm.id s).isDetectionActive = false := by
  have hfind : s.holdTimers.find? (fun t => t.id = tm.id) = some tm := by
    rw [h]; simp
  unfold fireHold
  rw [hfind]
  simp [handleGestureResponse, hact, h]

/-- Firing a hold timer that is no longer outstanding does nothing. -/
theorem fireHold_gone (i : ℕ) (s : EngineState)
    (h : s.holdTimers.find? (fun t => t.id = i) = none) :
    fireHold i s = s := by
  unfold fireHold
  rw [h]

theorem clearGestureTimeout_pendings (s : EngineState) :
    (clearGestureTimeout s).pendingBlinkResponse = s.pendingBlinkResponse ∧
      (clearGestureTimeout s).pendingSmileResponse = s.pendingSmileResponse ∧
      (clearGestureTimeout s).pendingNodResponse = s.pendingNodResponse ∧
      (clearGestureTimeout s).pendingWaveResponse = s.pendingWaveResponse := by
  cases h : s.gestureTimeoutRef <;> simp [clearGestureTimeout, h]

/-- A submission records its value as the pending response of its gesture. -/
theorem pendingOf_processGestureResponse (r : Resp) (g : GestureType) (t : ℤ)
    (s : EngineState) :
    pendingOf g (processGestureResponse r g t s) = some r := by
  cases g <;> simp [processGestureResponse, setPending, pendingOf]

/-- A submission only touches the gate bookkeeping: every detector-owned
state field passes through processGestureResponse unchanged. -/
theorem processGestureResponse_detectorFields (r : Resp) (g : GestureType) (t : ℤ)
    (s : EngineState) :
    (processGestureResponse r g t s).isBlinking = s.isBlinking ∧
      (processGestureResponse r g t s).blinkStartTime = s.blinkStartTime ∧
      (processGestureResponse r g t s).blinkHistory = s.blinkHistory ∧
      (processGestureResponse r g t s).lastBlinkTime = s.lastBlinkTime ∧
      (processGestureResponse r g t s).blinkEvents = s.blinkEvents ∧
      (processGestureResponse r g t s).checkTimers = s.checkTimers ∧
      (processGestureResponse r g t s).neutralMouthWidth = s.neutralMouthWidth ∧
      (processGestureResponse r g t s).isSmiling = s.isSmiling ∧
      (processGestureResponse r g t s).smileStartTime = s.smileStartTime ∧
      (processGestureResponse r g t s).neutralHeadPitch = s.neutralHeadPitch ∧
      (processGestureResponse r g t s).isNodding = s.isNodding ∧
      (processGestureResponse r g t s).nodCount = s.nodCount ∧
      (processGestureResponse r g t s).lastNodTime = s.lastNodTime ∧
      (processGestureResponse r g t s).handPositionHistory = s.handPositionHistory ∧
      (processGestureResponse r g t s).waveCount = s.waveCount ∧
      (processGestureResponse r g t s).lastWaveTime = s.lastWaveTime ∧
      (processGestureResponse r g t s).isWaving = s.isWaving ∧
      (processGestureResponse r g t s).activeGesture = s.activeGesture := by
  cases g <;> cases h : s.gestureTimeoutRef <;>
    simp [processGestureResponse, setPending, clearGestureTimeout, h]

/-- The gate state after running the events, for stating last-write-wins. -/
theorem runGate_append (s : EngineState) (evs : List GateEv) (e : GateEv) :
    runGate s (evs ++ [e]) = stepGate (runGate s evs) e := by
  simp [runGate]

theorem processGestureResponse_blinkEvents (r : Resp) (g : GestureType) (t : ℤ)
    (s : EngineState) :
    (processGestureResponse r g t s).blinkEvents = s.blinkEvents :=
  (processGestureResponse_detectorFields r g t s).2.2.2.2.1

theorem processGestureResponse_blinkHistory (r : Resp) (g : GestureType) (t : ℤ)
    (s : EngineState) :
    (processGestureResponse r g t s).blinkHistory = s.blinkHistory :=
  (processGestureResponse_detectorFields r g t s).2.2.1

theorem processGestureResponse_checkTimers (r : Resp) (g : GestureType) (t : ℤ)
    (s : EngineState) :
    (processGestureResponse r g t s).checkTimers = s.checkTimers :=
  (processGestureResponse_detectorFields r g t s).2.2.2.2.2.1

/-- On a falling edge (average below threshold while the blinking flag is
set), a duration outside the open interval only clears the blinking flag:
the blink is not counted and nothing else changes. -/
theorem blinkCore_fall_nongenuine (a : ℚ) (t : ℤ) (s : EngineState)
    (hb : s.isBlinking = true) (hav : a < 1/2)
    (hdur : ¬(t - s.blinkStartTime > 30 ∧ t - s.blinkStartTime < 350)) :
    blinkCore a t s = { s with isBlinking := false } := by
  have h1 : ¬(a > 1/2 ∧ s.isBlinking = false) := by
    rw [hb]; rintro ⟨-, hC⟩; exact Bool.noConfusion hC
  simp only [blinkCore, if_neg h1, if_pos (And.intro hav hb), if_neg hdur]

/-- On a falling edge, a duration strictly inside the interval records the
completed blink as genuine (the blinkHistory.push site). -/
theorem blinkCore_fall_genuine_events (a : ℚ) (t : ℤ) (s : EngineState)
    (hb : s.isBlinking = true) (hav : a < 1/2)
    (hdur : t - s.blinkStartTime > 30 ∧ t - s.blinkStartTime < 350) :
    (blinkCore a t s).blinkEvents = s.blinkEvents ++ [t] := by
  have h1 : ¬(a > 1/2 ∧ s.isBlinking = false) := by
    rw [hb]; rintro ⟨-, hC⟩; exact Bool.noConfusion hC
  simp only [blinkCore, if_neg h1, if_pos (And.intro hav hb), if_pos hdur]
  split_ifs <;> simp [processGestureResponse_blinkEvents]

/-- C6: a completed blink is counted as genuine exactly when its duration
lies strictly inside (minDuration, maxDuration) = (30 ms, 350 ms); outside
that interval the falling edge only clears the blinking flag. -/
theorem c6_blink_duration_open_interval (f : Frame) (t : ℤ) (s : EngineState)
    (hb : s.isBlinking = true) (hav : avgBlinkOf f < 1/2) :
    ((detectBlink f t s).blinkEvents = s.blinkEvents ++ [t] ↔
      30 < t - s.blinkStartTime ∧ t - s.blinkStartTime < 350) ∧
      (¬(30 < t - s.blinkStartTime ∧ t - s.blinkStartTime < 350) →
        detectBlink f t s = { s with isBlinking := false }) := by
  constructor
  · constructor
    · intro hev
      by_contra hdur
      rw [detectBlink, blinkCore_fall_nongenuine _ _ _ hb hav hdur] at hev
      simp at hev
    · intro hdur
      exact blinkCore_fall_genuine_events _ _ _ hb hav hdur
  · intro hdur
    exact blinkCore_fall_nongenuine _ _ _ hb hav hdur

/-- Witness for C6 at the boundary durations: with a blink that started at
t = 1000 and an all-zero (sub-threshold) frame, ending at 1030 (exactly
minDuration) is not counted, ending at 1031 is counted, ending at 1350
(exactly maxDuration) is not counted. -/
theorem c6_blink_duration_witness :
    (detectBlink ⟨[], []⟩ 1030
        { initEngine with isBlinking := true, blinkStartTime := 1000 }).blinkEvents = [] ∧
      (detectBlink ⟨[], []⟩ 1031
        { initEngine with isBlinking := true, blinkStartTime := 1000 }).blinkEvents = [1031] ∧
      (detectBlink ⟨[], []⟩ 1350
        { initEngine with isBlinking := true, blinkStartTime := 1000 }).blinkEvents = [] := by
  have hav : avgBlinkOf ⟨[], []⟩ < 1/2 := by simp [avgBlinkOf, scoreOf]
  have h31 := (c6_blink_duration_open_interval ⟨[], []⟩ 1031
    { initEngine with isBlinking := true, blinkStartTime := 1000 } rfl hav).1.mpr (by decide)
  have hbe : ({ initEngine with isBlinking := true, blinkStartTime := 1000 } :
      EngineState).blinkEvents = [] := rfl
  rw [hbe] at h31
  refine ⟨?_, by simpa using h31, ?_⟩
  · norm_num [detectBlink, blinkCore, avgBlinkOf, scoreOf, initEngine]
  · norm_num [detectBlink, blinkCore, avgBlinkOf, scoreOf, initEngine]

/-- C1: over any sequence of candidate submissions to the confirmation
gate (processGestureResponse), at most one hold timer is outstanding (so
at most one FinalSignal is scheduled) at every reachable state; each new
submission cancels the previous timer and replaces it with a single fresh
800 ms timer carrying the submitted value, storing that value as the
pending response; and when the hold window elapses with no further
submission, the value finalized is exactly the last submission's value,
after which no timer remains and firing again emits nothing. -/
theorem c1_gate_single_timer_last_wins :
    (∀ evs s, GateWf s → GateWf (runGate s evs) ∧ (runGate s evs).holdTimers.length ≤ 1)
    ∧ (∀ r g t s, GateWf s →
        (processGestureResponse r g t s).holdTimers = [⟨s.nextId, t + 800, r, g⟩] ∧
          pendingOf g (processGestureResponse r g t s) = some r)
    ∧ (∀ evs t r g s, GateWf s → s.isDetectionActive = true →
        (∀ e ∈ evs, e.isSubmit) →
        (runGate s (evs ++ [.gsubmit t r g])).holdTimers
            = [⟨(runGate s evs).nextId, t + 800, r, g⟩] ∧
          (fireHold (runGate s evs).nextId (runGate s (evs ++ [.gsubmit t r g]))).finalLog
            = s.finalLog ++ [r] ∧
          (fireHold (runGate s evs).nextId (runGate s (evs ++ [.gsubmit t r g]))).holdTimers
            = [] ∧
          fireHold (runGate s evs).nextId
              (fireHold (runGate s evs).nextId (runGate s (evs ++ [.gsubmit t r g])))
            = fireHold (runGate s evs).nextId (runGate s (evs ++ [.gsubmit t r g]))) := by
  refine ⟨?_, ?_, ?_⟩
  · intro evs s h
    have hwf := gateWf_runGate evs s h
    exact ⟨hwf, hwf.2⟩
  · intro r g t s h
    exact ⟨processGestureResponse_holdTimers r g t s h,
      pendingOf_processGestureResponse r g t s⟩
  · intro evs t r g s h hact hsub
    have hwfS := gateWf_runGate evs s h
    have hpres := runGate_submits_active_finalLog evs s hsub
    have hcons : runGate s (evs ++ [.gsubmit t r g])
        = processGestureResponse r g t (runGate s evs) := by
      rw [runGate_append]; rfl
    set S := runGate s evs with hS
    have htim : (processGestureResponse r g t S).holdTimers
        = [⟨S.nextId, t + 800, r, g⟩] := processGestureResponse_holdTimers r g t S hwfS
    have hact1 : (processGestureResponse r g t S).isDetectionActive = true := by
      rw [processGestureResponse_isDetectionActive, hpres.1, hact]
    have hfire := fireHold_singleton ⟨S.nextId, t + 800, r, g⟩
      (processGestureResponse r g t S) htim hact1
    refine ⟨by rw [hcons]; exact htim, ?_, ?_, ?_⟩
    · rw [hcons]
      have := hfire.1
      rw [processGestureResponse_finalLog, hpres.2] at this
      exact this
    · rw [hcons]; exact hfire.2.1
    · rw [hcons]
      exact fireHold_gone _ _ (by rw [hfire.2.1]; rfl)

/-- Witness for C1 at concrete inputs: starting from a fresh question,
submitting no/smile at t=100 then yes/blink at t=200 and letting the hold
timer fire finalizes yes, the value of the last submission. -/
theorem c1_gate_witness :
    GateWf (selectQuestion initEngine) ∧
      (fireHold (runGate (selectQuestion initEngine)
            [.gsubmit 100 .no .smile]).nextId
          (runGate (selectQuestion initEngine)
            ([.gsubmit 100 .no .smile] ++ [.gsubmit 200 .yes .blink]))).finalLog
        = (selectQuestion initEngine).finalLog ++ [.yes] := by
  have h0 : (selectQuestion initEngine).holdTimers = [] := rfl
  have hwf : GateWf (selectQuestion initEngine) := by
    constructor
    · intro tm hm
      rw [h0] at hm
      exact absurd hm (List.not_mem_nil tm)
    · rw [h0]; simp
  refine ⟨hwf, ?_⟩
  exact (c1_gate_single_timer_last_wins.2.2 [.gsubmit 100 .no .smile] 200 .yes .blink
    (selectQuestion initEngine) hwf rfl
    (by intro e he; simp at he; subst he; trivial)).2.1

/-- Once the smile baseline is non-zero, no detectSmile branch writes it. -/
theorem smileCore_neutral_preserved (w : ℚ) (t : ℤ) (s : EngineState)
    (h : ¬s.neutralMouthWidth = 0) :
    (smileCore w t s).neutralMouthWidth = s.neutralMouthWidth := by
  simp only [smileCore, if_neg h]
  split_ifs <;> simp [processGestureResponse, setPending, clearGestureTimeout]

/-- Once the nod baseline is non-zero, no detectNod branch writes it. -/
theorem nodCore_neutral_preserved (p : ℚ) (t : ℤ) (s : EngineState)
    (h : ¬s.neutralHeadPitch = 0) :
    (nodCore p t s).neutralHeadPitch = s.neutralHeadPitch := by
  simp only [nodCore, if_neg h, nodDecide, nodFlag]
  split_ifs <;> simp [processGestureResponse, setPending, clearGestureTimeout]

/-- C9: for the smile and nod detectors, the first valid frame after
activation or reset (the first one measured while the baseline is zero)
only stores the measured value as the baseline and emits nothing; once the
baseline is non-zero every frame leaves it unchanged; switching gestures
or selecting a question zeroes both baselines again. -/
theorem c9_baseline_lazy_capture (sqrtQ : ℚ → ℚ) (f : Frame) (t : ℤ)
    (s : EngineState) (g : GestureType) :
    (∀ w, mouthWidthOf sqrtQ f = some w → s.neutralMouthWidth = 0 →
        detectSmile sqrtQ f t s = { s with neutralMouthWidth := w }) ∧
      (s.neutralMouthWidth ≠ 0 →
        (detectSmile sqrtQ f t s).neutralMouthWidth = s.neutralMouthWidth) ∧
      (∀ p, pitchOf f = some p → s.neutralHeadPitch = 0 →
        detectNod f t s = { s with neutralHeadPitch := p }) ∧
      (s.neutralHeadPitch ≠ 0 →
        (detectNod f t s).neutralHeadPitch = s.neutralHeadPitch) ∧
      (switchGesture g s).neutralMouthWidth = 0 ∧
      (switchGesture g s).neutralHeadPitch = 0 ∧
      (selectQuestion s).neutralMouthWidth = 0 ∧
      (selectQuestion s).neutralHeadPitch = 0 := by
  refine ⟨?_, ?_, ?_, ?_, rfl, rfl, rfl, rfl⟩
  · intro w hw hz
    rw [detectSmile, hw]
    simp only [smileCore, if_pos hz]
  · intro hz
    rw [detectSmile]
    cases hw : mouthWidthOf sqrtQ f with
    | none => rfl
    | some w => exact smileCore_neutral_preserved w t s hz
  · intro p hp hz
    rw [detectNod, hp]
    simp only [nodCore, if_pos hz]
  · intro hz
    rw [detectNod]
    cases hp : pitchOf f with
    | none => rfl
    | some p => exact nodCore_neutral_preserved p t s hz

/-- Filler landmark at the origin. -/
def zPt : Landmark := ⟨0, 0, 0⟩

/-- A full 292-landmark frame whose interesting indices are distinct:
nose tip (1) = (0,2,0), forehead (10) = (0,11,0), mouth corners
61 = (3,0,0) and 291 = (5,0,0); face edge 234 is present, 454 is not. -/
def fullFrame : Frame :=
  ⟨[], [zPt, ⟨0, 2, 0⟩] ++ List.replicate 8 zPt ++ [⟨0, 11, 0⟩] ++
      List.replicate 50 zPt ++ [⟨3, 0, 0⟩] ++ List.replicate 229 zPt ++ [⟨5, 0, 0⟩]⟩

theorem fullFrame_get61 : fullFrame.landmarks.get? 61 = some ⟨3, 0, 0⟩ := rfl

theorem fullFrame_get291 : fullFrame.landmarks.get? 291 = some ⟨5, 0, 0⟩ := rfl

theorem fullFrame_get1 : fullFrame.landmarks.get? 1 = some ⟨0, 2, 0⟩ := rfl

theorem fullFrame_get10 : fullFrame.landmarks.get? 10 = some ⟨0, 11, 0⟩ := rfl

/-- With the identity in place of the square root, fullFrame measures
mouth width 4. -/
theorem fullFrame_width : mouthWidthOf (fun x => x) fullFrame = some 4 := by
  unfold mouthWidthOf
  rw [fullFrame_get61, fullFrame_get291]
  norm_num [calculateDistance]

/-- fullFrame measures head pitch 9. -/
theorem fullFrame_pitch : pitchOf fullFrame = some 9 := by
  unfold pitchOf
  rw [fullFrame_get1, fullFrame_get10]
  norm_num

/-- Witness for C9 at concrete inputs: with the identity in place of the
square root, the first fullFrame stores mouth-width 4 and head-pitch 9 as
baselines, non-zero baselines survive further frames, and a gesture
switch zeroes them again. -/
theorem c9_baseline_witness :
    detectSmile (fun x => x) fullFrame 5 initEngine
        = { initEngine with neutralMouthWidth := 4 } ∧
      (detectSmile (fun x => x) fullFrame 6
        { initEngine with neutralMouthWidth := 40 }).neutralMouthWidth = 40 ∧
      detectNod fullFrame 5 initEngine = { initEngine with neutralHeadPitch := 9 } ∧
      (detectNod fullFrame 6
        { initEngine with neutralHeadPitch := 7 }).neutralHeadPitch = 7 ∧
      (switchGesture .nod { initEngine with neutralMouthWidth := 40 }).neutralMouthWidth
        = 0 := by
  refine ⟨?_, ?_, ?_, ?_, ?_⟩
  · exact (c9_baseline_lazy_capture (fun x => x) fullFrame 5 initEngine .blink).1
      4 fullFrame_width rfl
  · exact (c9_baseline_lazy_capture (fun x => x) fullFrame 6
      { initEngine with neutralMouthWidth := 40 } .blink).2.1 (by norm_num)
  · exact (c9_baseline_lazy_capture (fun x => x) fullFrame 5 initEngine .blink).2.2.1
      9 fullFrame_pitch rfl
  · exact (c9_baseline_lazy_capture (fun x => x) fullFrame 6
      { initEngine with neutralHeadPitch := 7 } .blink).2.2.2.1 (by norm_num)
  · exact (c9_baseline_lazy_capture (fun x => x) fullFrame 6
      { initEngine with neutralMouthWidth := 40 } .nod).2.2.2.2.1

theorem waveFlag_handPositionHistory (m : ℚ) (t : ℤ) (s : EngineState) :
    (waveFlag m t s).handPositionHistory = s.handPositionHistory := by
  unfold waveFlag; split_ifs <;> rfl

theorem waveFlag_rawLog (m : ℚ) (t : ℤ) (s : EngineState) :
    (waveFlag m t s).rawLog = s.rawLog := by
  unfold waveFlag; split_ifs <;> rfl

/-- The cooldown check either decides (clearing history and count) or
does nothing. -/
theorem waveDecide_cases (t : ℤ) (s1 : EngineState) :
    ((waveDecide t s1).handPositionHistory = [] ∧ (waveDecide t s1).waveCount = 0) ∨
      waveDecide t s1 = s1 := by
  unfold waveDecide
  by_cases h : s1.waveCount > 0 ∧ t - s1.lastWaveTime > 600 ∧ s1.pendingWaveResponse = none
  · rw [if_pos h]
    exact Or.inl ⟨rfl, rfl⟩
  · rw [if_neg h]
    exact Or.inr rfl

/-- The wave history after one invocation never exceeds the configured
historySize of 15. -/
theorem waveCore_len (sqrtQ : ℚ → ℚ) (pt : Point) (t : ℤ) (s : EngineState) :
    (waveCore sqrtQ pt t s).handPositionHistory.length ≤ 15 := by
  simp only [waveCore]
  set hist := if (s.handPositionHistory ++ [pt]).length > 15
    then (s.handPositionHistory ++ [pt]).drop ((s.handPositionHistory ++ [pt]).length - 15)
    else s.handPositionHistory ++ [pt] with hh
  have hkey : hist.length ≤ 15 := by
    rw [hh]
    split_ifs with h
    · rw [List.length_drop]; omega
    · simp only [gt_iff_lt, not_lt, List.length_append, List.length_cons,
        List.length_nil] at h ⊢
      omega
  by_cases h5 : hist.length < 5
  · rw [if_pos h5]
    exact hkey
  · rw [if_neg h5]
    rcases waveDecide_cases t (waveFlag (totalDist sqrtQ hist) t
        { s with handPositionHistory := hist }) with ⟨h1, -⟩ | heq
    · rw [h1]; simp
    · rw [heq, waveFlag_handPositionHistory]
      exact hkey

/-- C10: on every frame holding both face-edge landmarks, after the wave
detector runs the position history holds at most 15 points; while the
(pushed and truncated) history holds fewer than 5 points the detector
only records the new point and emits nothing; and whenever it emits a
wave decision (any growth of the raw-candidate log) the history is
cleared and the wave count reset to 0. -/
theorem c10_wave_history_invariants (sqrtQ : ℚ → ℚ) (f : Frame) (t : ℤ)
    (s : EngineState) (pt : Point) (hpt : wavePointOf f = some pt) :
    (detectHandWave sqrtQ f t s).handPositionHistory.length ≤ 15 ∧
      ((if (s.handPositionHistory ++ [pt]).length > 15
          then (s.handPositionHistory ++ [pt]).drop
            ((s.handPositionHistory ++ [pt]).length - 15)
          else s.handPositionHistory ++ [pt]).length < 5 →
        detectHandWave sqrtQ f t s = { s with handPositionHistory :=
          (if (s.handPositionHistory ++ [pt]).length > 15
            then (s.handPositionHistory ++ [pt]).drop
              ((s.handPositionHistory ++ [pt]).length - 15)
            else s.handPositionHistory ++ [pt]) }) ∧
      ((detectHandWave sqrtQ f t s).rawLog ≠ s.rawLog →
        (detectHandWave sqrtQ f t s).handPositionHistory = [] ∧
          (detectHandWave sqrtQ f t s).waveCount = 0) := by
  unfold detectHandWave
  rw [hpt]
  refine ⟨waveCore_len sqrtQ pt t s, ?_, ?_⟩
  · intro hlt
    simp only [waveCore, if_pos hlt]
  · intro hne
    simp only [waveCore] at hne ⊢
    set hist := if (s.handPositionHistory ++ [pt]).length > 15
      then (s.handPositionHistory ++ [pt]).drop ((s.handPositionHistory ++ [pt]).length - 15)
      else s.handPositionHistory ++ [pt] with hh
    by_cases h5 : hist.length < 5
    · rw [if_pos h5] at hne
      exact absurd rfl hne
    · rw [if_neg h5] at hne ⊢
      rcases waveDecide_cases t (waveFlag (totalDist sqrtQ hist) t
          { s with handPositionHistory := hist }) with ⟨h1, h2⟩ | heq
      · exact ⟨h1, h2⟩
      · rw [heq, waveFlag_rawLog] at hne
        exact absurd rfl hne

/-- A 455-landmark frame that also has the face-edge landmarks:
234 = (1,0,0) and 454 = (2,0,0), so the wave proxy point is (3/2, 0). -/
def waveFrame : Frame :=
  ⟨[], [zPt, ⟨0, 2, 0⟩] ++ List.replicate 8 zPt ++ [⟨0, 11, 0⟩] ++
      List.replicate 50 zPt ++ [⟨3, 0, 0⟩] ++ List.replicate 172 zPt ++
      [⟨1, 0, 0⟩] ++ List.replicate 56 zPt ++ [⟨5, 0, 0⟩] ++
      List.replicate 162 zPt ++ [⟨2, 0, 0⟩]⟩

theorem waveFrame_point : wavePointOf waveFrame = some ⟨3/2, 0⟩ := by
  unfold wavePointOf
  rw [show waveFrame.landmarks.get? 234 = some ⟨1, 0, 0⟩ from rfl,
    show waveFrame.landmarks.get? 454 = some ⟨2, 0, 0⟩ from rfl]
  norm_num

/-- Witness for C10 at concrete inputs: from a 3-point history the pushed
point gives a 4-point history, which is below the 5-point minimum, so the
detector only records the point; the bound of 15 holds as well. -/
theorem c10_wave_witness :
    (detectHandWave (fun x => x) waveFrame 1000
        { initEngine with
          handPositionHistory := List.replicate 3 ⟨0, 0⟩ }).handPositionHistory.length
        ≤ 15 ∧
      detectHandWave (fun x => x) waveFrame 1000
          { initEngine with handPositionHistory := List.replicate 3 ⟨0, 0⟩ }
        = { initEngine with handPositionHistory :=
            (List.replicate 3 ⟨0, 0⟩ ++ [⟨3/2, 0⟩]) } := by
  have h := c10_wave_history_invariants (fun x => x) waveFrame 1000
    { initEngine with handPositionHistory := List.replicate 3 ⟨0, 0⟩ }
    ⟨3/2, 0⟩ waveFrame_point
  refine ⟨h.1, ?_⟩
  have h2 := h.2.1 (by simp)
  rw [h2]
  norm_num

/-- A frame with both eyes far above the blink threshold. -/
def blinkUpFrame : Frame :=
  ⟨[⟨"eyeBlinkLeft", 9/10⟩, ⟨"eyeBlinkRight", 9/10⟩], []⟩

/-- A frame with no blendshape categories and no landmarks at all: every
required measurement is missing. -/
def emptyFrame : Frame := ⟨[], []⟩

/-- Counterexample for C3: the blink detector does not skip a frame whose
eyeBlinkLeft/eyeBlinkRight categories are missing.  After a genuine blink
(rise at 1000, fall at 1100) and a second rise at 1200, a frame at 1300
missing both categories reads as average score 0, completes the second
blink, and emits a no candidate on that very frame. -/
theorem c3_blink_missing_cex :
    emptyFrame.blendshapes.find? (fun b => b.categoryName = "eyeBlinkLeft") = none ∧
      emptyFrame.blendshapes.find? (fun b => b.categoryName = "eyeBlinkRight") = none ∧
      (detectBlink emptyFrame 1300 (detectBlink blinkUpFrame 1200
          (detectBlink emptyFrame 1100 (detectBlink blinkUpFrame 1000 initEngine)))).rawLog
        = [⟨.no, .blink, 1300⟩] := by
  refine ⟨rfl, rfl, ?_⟩
  have havU : avgBlinkOf blinkUpFrame = 9/10 := by
    simp [avgBlinkOf, scoreOf, blinkUpFrame]
  have havE : avgBlinkOf emptyFrame = 0 := by
    simp [avgBlinkOf, scoreOf, emptyFrame]
  have h1 : detectBlink blinkUpFrame 1000 initEngine
      = { initEngine with isBlinking := true, blinkStartTime := 1000 } := by
    rw [detectBlink, havU]
    norm_num [blinkCore, initEngine]
  have h2 : detectBlink emptyFrame 1100
      { initEngine with isBlinking := true, blinkStartTime := 1000 }
      = { initEngine with
          blinkStartTime := 1000, blinkHistory := [1100], blinkEvents := [1100],
          checkTimers := [⟨1, 1900⟩], nextId := 2, lastBlinkTime := 1100 } := by
    rw [detectBlink, havE]
    norm_num [blinkCore, initEngine]
  have h3 : detectBlink blinkUpFrame 1200
      { initEngine with
        blinkStartTime := 1000, blinkHistory := [1100], blinkEvents := [1100],
        checkTimers := [⟨1, 1900⟩], nextId := 2, lastBlinkTime := 1100 }
      = { initEngine with
          blinkStartTime := 1200, blinkHistory := [1100], blinkEvents := [1100],
          checkTimers := [⟨1, 1900⟩], nextId := 2, lastBlinkTime := 1100,
          isBlinking := true } := by
    rw [detectBlink, havU]
    norm_num [blinkCore, initEngine]
  have h4 : (detectBlink emptyFrame 1300
      { initEngine with
        blinkStartTime := 1200, blinkHistory := [1100], blinkEvents := [1100],
        checkTimers := [⟨1, 1900⟩], nextId := 2, lastBlinkTime := 1100,
        isBlinking := true }).rawLog
      = [⟨.no, .blink, 1300⟩] := by
    rw [detectBlink, havE]
    norm_num [blinkCore, initEngine, processGestureResponse, setPending,
      clearGestureTimeout]
  rw [h1, h2, h3, h4]

/-- C3 (amended): a missing mouth-corner landmark makes detectSmile skip
the frame with no state change, likewise detectNod for nose-tip/forehead
and detectHandWave for the face edges; the blink detector however reads a
missing eyeBlinkLeft/eyeBlinkRight category as score 0 and processes the
frame normally (so it can complete a blink and emit on such a frame). -/
theorem c3_malformed_frame_handling (sqrtQ : ℚ → ℚ) (f : Frame) (t : ℤ)
    (s : EngineState) :
    (f.landmarks.get? 61 = none ∨ f.landmarks.get? 291 = none →
        detectSmile sqrtQ f t s = s) ∧
      (f.landmarks.get? 1 = none ∨ f.landmarks.get? 10 = none →
        detectNod f t s = s) ∧
      (f.landmarks.get? 234 = none ∨ f.landmarks.get? 454 = none →
        detectHandWave sqrtQ f t s = s) ∧
      (f.blendshapes.find? (fun b => b.categoryName = "eyeBlinkLeft") = none →
        f.blendshapes.find? (fun b => b.categoryName = "eyeBlinkRight") = none →
        detectBlink f t s = blinkCore 0 t s) := by
  refine ⟨?_, ?_, ?_, ?_⟩
  · intro h
    have hw : mouthWidthOf sqrtQ f = none := by
      unfold mouthWidthOf
      rcases h with h | h
      · rw [h]
      · rw [h]
        cases f.landmarks.get? 61 <;> rfl
    rw [detectSmile, hw]
  · intro h
    have hp : pitchOf f = none := by
      unfold pitchOf
      rcases h with h | h
      · rw [h]
      · rw [h]
        cases f.landmarks.get? 1 <;> rfl
    rw [detectNod, hp]
  · intro h
    have hw : wavePointOf f = none := by
      unfold wavePointOf
      rcases h with h | h
      · rw [h]
      · rw [h]
        cases f.landmarks.get? 234 <;> rfl
    rw [detectHandWave, hw]
  · intro hl hr
    rw [detectBlink, show avgBlinkOf f = 0 by simp [avgBlinkOf, scoreOf, hl, hr]]

/-- Witness for the amended C3 at concrete inputs: the empty frame is
skipped by the smile, nod and wave detectors, and is processed by the
blink detector as average score 0. -/
theorem c3_malformed_frame_witness :
    detectSmile (fun x => x) emptyFrame 100 initEngine = initEngine ∧
      detectNod emptyFrame 100 initEngine = initEngine ∧
      detectHandWave (fun x => x) emptyFrame 100 initEngine = initEngine ∧
      detectBlink emptyFrame 100 initEngine = blinkCore 0 100 initEngine := by
  have h := c3_malformed_frame_handling (fun x => x) emptyFrame 100 initEngine
  exact ⟨h.1 (Or.inl rfl), h.2.1 (Or.inl rfl), h.2.2.1 (Or.inl rfl), h.2.2.2 rfl rfl⟩

/-- Falling edge, genuine duration, and the two most recent history
entries closer than the 500 ms double-blink window: exactly one no
candidate is submitted, the history is cleared, and no deferred check is
scheduled. -/
theorem blinkCore_fall_double (a : ℚ) (t : ℤ) (s : EngineState)
    (hb : s.isBlinking = true) (hav : a < 1/2)
    (hdur : t - s.blinkStartTime > 30 ∧ t - s.blinkStartTime < 350)
    (hlen : ((s.blinkHistory ++ [t]).filter (fun time => t - time < 2000)).length ≥ 2)
    (hgap : ((s.blinkHistory ++ [t]).filter (fun time => t - time < 2000)).getD
          (((s.blinkHistory ++ [t]).filter (fun time => t - time < 2000)).length - 1) 0
        - ((s.blinkHistory ++ [t]).filter (fun time => t - time < 2000)).getD
          (((s.blinkHistory ++ [t]).filter (fun time => t - time < 2000)).length - 2) 0
        < 500) :
    (blinkCore a t s).rawLog = s.rawLog ++ [⟨.no, .blink, t⟩] ∧
      (blinkCore a t s).blinkHistory = [] ∧
      (blinkCore a t s).checkTimers = s.checkTimers ∧
      (blinkCore a t s).blinkEvents = s.blinkEvents ++ [t] := by
  have h1 : ¬(a > 1/2 ∧ s.isBlinking = false) := by
    rw [hb]; rintro ⟨-, hC⟩; exact Bool.noConfusion hC
  simp only [blinkCore, if_neg h1, if_pos (And.intro hav hb), if_pos hdur,
    if_pos (And.intro hlen hgap)]
  simp [processGestureResponse_rawLog, processGestureResponse_checkTimers,
    processGestureResponse_blinkEvents]

/-- Falling edge, genuine duration, at least two history entries but the
two most recent separated by the window or more: the blink is recorded in
the history but nothing is emitted and no deferred check is scheduled. -/
theorem blinkCore_fall_two_wide (a : ℚ) (t : ℤ) (s : EngineState)
    (hb : s.isBlinking = true) (hav : a < 1/2)
    (hdur : t - s.blinkStartTime > 30 ∧ t - s.blinkStartTime < 350)
    (hlen : ((s.blinkHistory ++ [t]).filter (fun time => t - time < 2000)).length ≥ 2)
    (hgap : ¬(((s.blinkHistory ++ [t]).filter (fun time => t - time < 2000)).getD
          (((s.blinkHistory ++ [t]).filter (fun time => t - time < 2000)).length - 1) 0
        - ((s.blinkHistory ++ [t]).filter (fun time => t - time < 2000)).getD
          (((s.blinkHistory ++ [t]).filter (fun time => t - time < 2000)).length - 2) 0
        < 500)) :
    blinkCore a t s = { s with
      isBlinking := false
      blinkHistory := (s.blinkHistory ++ [t]).filter (fun time => t - time < 2000)
      blinkEvents := s.blinkEvents ++ [t]
      lastBlinkTime := t } := by
  have h1 : ¬(a > 1/2 ∧ s.isBlinking = false) := by
    rw [hb]; rintro ⟨-, hC⟩; exact Bool.noConfusion hC
  have hlen1 : ¬((s.blinkHistory ++ [t]).filter (fun time => t - time < 2000)).length = 1 := by
    omega
  simp only [blinkCore, if_neg h1, if_pos (And.intro hav hb), if_pos hdur,
    if_neg (fun hc => hgap (And.right hc)), if_neg hlen1]

/-- Falling edge, genuine duration, and exactly one history entry after
the push: the deferred single-blink check is scheduled 800 ms out and
nothing is emitted. -/
theorem blinkCore_fall_single (a : ℚ) (t : ℤ) (s : EngineState)
    (hb : s.isBlinking = true) (hav : a < 1/2)
    (hdur : t - s.blinkStartTime > 30 ∧ t - s.blinkStartTime < 350)
    (hlen : ((s.blinkHistory ++ [t]).filter (fun time => t - time < 2000)).length = 1) :
    blinkCore a t s = { s with
      isBlinking := false
      blinkHistory := (s.blinkHistory ++ [t]).filter (fun time => t - time < 2000)
      blinkEvents := s.blinkEvents ++ [t]
      checkTimers := s.checkTimers ++ [⟨s.nextId, t + 800⟩]
      nextId := s.nextId + 1
      lastBlinkTime := t } := by
  have h1 : ¬(a > 1/2 ∧ s.isBlinking = false) := by
    rw [hb]; rintro ⟨-, hC⟩; exact Bool.noConfusion hC
  have hlen2 : ¬(((s.blinkHistory ++ [t]).filter (fun time => t - time < 2000)).length ≥ 2 ∧
      ((s.blinkHistory ++ [t]).filter (fun time => t - time < 2000)).getD
          (((s.blinkHistory ++ [t]).filter (fun time => t - time < 2000)).length - 1) 0
        - ((s.blinkHistory ++ [t]).filter (fun time => t - time < 2000)).getD
          (((s.blinkHistory ++ [t]).filter (fun time => t - time < 2000)).length - 2) 0
        < 500) := by
    rintro ⟨hc, -⟩
    omega
  simp only [blinkCore, if_neg h1, if_pos (And.intro hav hb), if_pos hdur,
    if_neg hlen2, if_pos hlen]

/-- Firing an outstanding deferred check while the history still holds
exactly one entry and no blink response is pending submits yes (dated at
the scheduled fire time) and clears the history. -/
theorem fireCheck_fires (i : ℕ) (tm : CheckTimer) (s : EngineState)
    (hfind : s.checkTimers.find? (fun tmm => tmm.id = i) = some tm)
    (hcond : s.blinkHistory.length = 1 ∧ s.pendingBlinkResponse = none) :
    (fireCheck i s).rawLog = s.rawLog ++ [⟨.yes, .blink, tm.fireAt⟩] ∧
      (fireCheck i s).blinkHistory = [] := by
  simp only [fireCheck, hfind, if_pos hcond]
  simp [processGestureResponse_rawLog]

/-- Firing an outstanding deferred check whose condition fails (stale
history length or a pending blink response) only removes the timer. -/
theorem fireCheck_noop (i : ℕ) (tm : CheckTimer) (s : EngineState)
    (hfind : s.checkTimers.find? (fun tmm => tmm.id = i) = some tm)
    (hcond : ¬(s.blinkHistory.length = 1 ∧ s.pendingBlinkResponse = none)) :
    fireCheck i s = { s with checkTimers := s.checkTimers.filter (fun tmm => tmm.id ≠ i) } := by
  simp only [fireCheck, hfind, if_neg hcond]

/-- C4: a genuine blink that leaves exactly one history entry schedules
one deferred check, confirmationDelay = 800 ms out, and emits nothing on
that frame; when the check fires it emits a yes candidate and clears the
history exactly when at that moment the history still holds one entry and
no blink response is pending; and while a blink response raised in the
meantime is still pending (as after a double-blink no from a third blink
arriving early) the stale check is a no-op apart from removing its timer,
so responses never stack — the third blink is just re-processed by the
ordinary detectBlink logic, scheduling its own fresh check. -/
theorem c4_deferred_single_blink_check (f : Frame) (t : ℤ) (s : EngineState)
    (i : ℕ) (tm : CheckTimer) (sc : EngineState) :
    (s.isBlinking = true → avgBlinkOf f < 1/2 →
      t - s.blinkStartTime > 30 ∧ t - s.blinkStartTime < 350 →
      ((s.blinkHistory ++ [t]).filter (fun time => t - time < 2000)).length = 1 →
      detectBlink f t s = { s with
        isBlinking := false
        blinkHistory := (s.blinkHistory ++ [t]).filter (fun time => t - time < 2000)
        blinkEvents := s.blinkEvents ++ [t]
        checkTimers := s.checkTimers ++ [⟨s.nextId, t + 800⟩]
        nextId := s.nextId + 1
        lastBlinkTime := t }) ∧
      (sc.checkTimers.find? (fun tmm => tmm.id = i) = some tm →
        ((fireCheck i sc).rawLog ≠ sc.rawLog ↔
          sc.blinkHistory.length = 1 ∧ sc.pendingBlinkResponse = none) ∧
          (sc.blinkHistory.length = 1 ∧ sc.pendingBlinkResponse = none →
            (fireCheck i sc).rawLog = sc.rawLog ++ [⟨.yes, .blink, tm.fireAt⟩] ∧
              (fireCheck i sc).blinkHistory = []) ∧
          (sc.pendingBlinkResponse ≠ none →
            fireCheck i sc
              = { sc with checkTimers := sc.checkTimers.filter (fun tmm => tmm.id ≠ i) })) := by
  constructor
  · intro hb hav hdur hlen
    exact blinkCore_fall_single (avgBlinkOf f) t s hb hav hdur hlen
  · intro hfind
    refine ⟨⟨?_, ?_⟩, ?_, ?_⟩
    · intro hne
      by_contra hcond
      rw [fireCheck_noop i tm sc hfind hcond] at hne
      exact absurd rfl hne
    · intro hcond
      rw [(fireCheck_fires i tm sc hfind hcond).1]
      simp
    · intro hcond
      exact fireCheck_fires i tm sc hfind hcond
    · intro hp
      exact fireCheck_noop i tm sc hfind (by rintro ⟨-, hn⟩; exact hp hn)

/-- Witness for C4 at concrete inputs: a 40 ms blink completing at 1100
from the initial state schedules check 1 at 1900; firing it from the
resulting state emits yes at 1900; firing it instead from the same state
with a pending no response only removes the timer. -/
theorem c4_deferred_check_witness :
    detectBlink emptyFrame 1100
        { initEngine with isBlinking := true, blinkStartTime := 1060 }
      = { initEngine with
          blinkStartTime := 1060, blinkHistory := [1100], blinkEvents := [1100],
          checkTimers := [⟨1, 1900⟩], nextId := 2, lastBlinkTime := 1100 } ∧
      (fireCheck 1 { initEngine with
          blinkStartTime := 1060, blinkHistory := [1100], blinkEvents := [1100],
          checkTimers := [⟨1, 1900⟩], nextId := 2, lastBlinkTime := 1100 }).rawLog
        = [⟨.yes, .blink, 1900⟩] ∧
      fireCheck 1 { initEngine with
          blinkStartTime := 1060, blinkHistory := [1100], blinkEvents := [1100],
          checkTimers := [⟨1, 1900⟩], nextId := 2, lastBlinkTime := 1100,
          pendingBlinkResponse := some .no }
        = { initEngine with
            blinkStartTime := 1060, blinkHistory := [1100], blinkEvents := [1100],
            checkTimers := [], nextId := 2, lastBlinkTime := 1100,
            pendingBlinkResponse := some .no } := by
  have havE : avgBlinkOf emptyFrame < 1/2 := by
    simp [avgBlinkOf, scoreOf, emptyFrame]
  refine ⟨?_, ?_, ?_⟩
  · have h := (c4_deferred_single_blink_check emptyFrame 1100
      { initEngine with isBlinking := true, blinkStartTime := 1060 }
      1 ⟨1, 1900⟩ initEngine).1 rfl havE (by decide) (by simp [initEngine])
    rw [h]
    norm_num [initEngine]
  · have h := ((c4_deferred_single_blink_check emptyFrame 1100 initEngine 1 ⟨1, 1900⟩
      { initEngine with
        blinkStartTime := 1060, blinkHistory := [1100], blinkEvents := [1100],
        checkTimers := [⟨1, 1900⟩], nextId := 2, lastBlinkTime := 1100 }).2
      (by simp) ).2.1 (by simp [initEngine])
    rw [h.1]
    norm_num [initEngine]
  · have h := ((c4_deferred_single_blink_check emptyFrame 1100 initEngine 1 ⟨1, 1900⟩
      { initEngine with
        blinkStartTime := 1060, blinkHistory := [1100], blinkEvents := [1100],
        checkTimers := [⟨1, 1900⟩], nextId := 2, lastBlinkTime := 1100,
        pendingBlinkResponse := some .no }).2 (by simp)).2.2 (by simp)
    rw [h]
    norm_num

/-- Counterexample for C5: two genuine blinks separated by
doubleBlinkWindow + 1 = 501 ms are NOT evaluated as two independent
single-blink checks.  Blinks complete at 1100 and 1601; the second joins
the history (two entries, gap 501 ≥ 500, so no double-blink no), but no
new deferred check is scheduled because the history does not hold exactly
one entry, and the first blink's check, firing at 1900, sees two entries
and does nothing.  Net effect: two genuine blinks, no raw candidate ever,
and no evaluation left pending. -/
theorem c5_gap_between_windows_cex :
    (fireCheck 1 (detectBlink emptyFrame 1601 (detectBlink blinkUpFrame 1400
          (detectBlink emptyFrame 1100
            (detectBlink blinkUpFrame 1000 initEngine))))).blinkEvents
        = [1100, 1601] ∧
      (fireCheck 1 (detectBlink emptyFrame 1601 (detectBlink blinkUpFrame 1400
          (detectBlink emptyFrame 1100
            (detectBlink blinkUpFrame 1000 initEngine))))).rawLog = [] ∧
      (fireCheck 1 (detectBlink emptyFrame 1601 (detectBlink blinkUpFrame 1400
          (detectBlink emptyFrame 1100
            (detectBlink blinkUpFrame 1000 initEngine))))).checkTimers = [] := by
  have havU : avgBlinkOf blinkUpFrame = 9/10 := by
    simp [avgBlinkOf, scoreOf, blinkUpFrame]
  have havE : avgBlinkOf emptyFrame = 0 := by
    simp [avgBlinkOf, scoreOf, emptyFrame]
  have h1 : detectBlink blinkUpFrame 1000 initEngine
      = { initEngine with isBlinking := true, blinkStartTime := 1000 } := by
    rw [detectBlink, havU]
    norm_num [blinkCore, initEngine]
  have h2 : detectBlink emptyFrame 1100
      { initEngine with isBlinking := true, blinkStartTime := 1000 }
      = { initEngine with
          blinkStartTime := 1000, blinkHistory := [1100], blinkEvents := [1100],
          checkTimers := [⟨1, 1900⟩], nextId := 2, lastBlinkTime := 1100 } := by
    rw [detectBlink, havE]
    norm_num [blinkCore, initEngine]
  have h3 : detectBlink blinkUpFrame 1400
      { initEngine with
        blinkStartTime := 1000, blinkHistory := [1100], blinkEvents := [1100],
        checkTimers := [⟨1, 1900⟩], nextId := 2, lastBlinkTime := 1100 }
      = { initEngine with
          blinkStartTime := 1400, blinkHistory := [1100], blinkEvents := [1100],
          checkTimers := [⟨1, 1900⟩], nextId := 2, lastBlinkTime := 1100,
          isBlinking := true } := by
    rw [detectBlink, havU]
    norm_num [blinkCore, initEngine]
  have h4 : detectBlink emptyFrame 1601
      { initEngine with
        blinkStartTime := 1400, blinkHistory := [1100], blinkEvents := [1100],
        checkTimers := [⟨1, 1900⟩], nextId := 2, lastBlinkTime := 1100,
        isBlinking := true }
      = { initEngine with
          blinkStartTime := 1400, blinkHistory := [1100, 1601],
          blinkEvents := [1100, 1601], checkTimers := [⟨1, 1900⟩], nextId := 2,
          lastBlinkTime := 1601 } := by
    rw [detectBlink, havE]
    norm_num [blinkCore, initEngine]
  have h5 : fireCheck 1
      { initEngine with
        blinkStartTime := 1400, blinkHistory := [1100, 1601],
        blinkEvents := [1100, 1601], checkTimers := [⟨1, 1900⟩], nextId := 2,
        lastBlinkTime := 1601 }
      = { initEngine with
          blinkStartTime := 1400, blinkHistory := [1100, 1601],
          blinkEvents := [1100, 1601], checkTimers := [], nextId := 2,
          lastBlinkTime := 1601 } := by
    norm_num [fireCheck, initEngine]
  rw [h1, h2, h3, h4, h5]
  exact ⟨rfl, rfl, rfl⟩

/-- C5 (amended): when a genuine blink leaves the history with at least
two entries whose two most recent timestamps differ by less than the
500 ms window, the detector emits exactly one no candidate, clears the
history and schedules nothing.  But two genuine blinks more than the
window apart are not evaluated as two independent single-blink checks:
if the gap is at least 500 ms the second blink merely joins the history —
no candidate is emitted and, the history now holding two entries, no
fresh deferred check is scheduled — and any outstanding check that fires
while the history does not hold exactly one entry is a no-op apart from
removing its timer.  (Only a second blink arriving after the first's
800 ms check has fired, or after the 2000 ms retention has evicted the
first entry, gets its own single-blink evaluation.) -/
theorem c5_double_blink_window (f : Frame) (t : ℤ) (s : EngineState) (i : ℕ)
    (tm : CheckTimer) (sc : EngineState) :
    (s.isBlinking = true → avgBlinkOf f < 1/2 →
      t - s.blinkStartTime > 30 ∧ t - s.blinkStartTime < 350 →
      ((s.blinkHistory ++ [t]).filter (fun time => t - time < 2000)).length ≥ 2 →
      ((s.blinkHistory ++ [t]).filter (fun time => t - time < 2000)).getD
            (((s.blinkHistory ++ [t]).filter (fun time => t - time < 2000)).length - 1) 0
          - ((s.blinkHistory ++ [t]).filter (fun time => t - time < 2000)).getD
            (((s.blinkHistory ++ [t]).filter (fun time => t - time < 2000)).length - 2) 0
          < 500 →
      (detectBlink f t s).rawLog = s.rawLog ++ [⟨.no, .blink, t⟩] ∧
        (detectBlink f t s).blinkHistory = [] ∧
        (detectBlink f t s).checkTimers = s.checkTimers) ∧
      (s.isBlinking = true → avgBlinkOf f < 1/2 →
        t - s.blinkStartTime > 30 ∧ t - s.blinkStartTime < 350 →
        ((s.blinkHistory ++ [t]).filter (fun time => t - time < 2000)).length ≥ 2 →
        ¬(((s.blinkHistory ++ [t]).filter (fun time => t - time < 2000)).getD
              (((s.blinkHistory ++ [t]).filter (fun time => t - time < 2000)).length - 1) 0
            - ((s.blinkHistory ++ [t]).filter (fun time => t - time < 2000)).getD
              (((s.blinkHistory ++ [t]).filter (fun time => t - time < 2000)).length - 2) 0
            < 500) →
        detectBlink f t s = { s with
          isBlinking := false
          blinkHistory := (s.blinkHistory ++ [t]).filter (fun time => t - time < 2000)
          blinkEvents := s.blinkEvents ++ [t]
          lastBlinkTime := t }) ∧
      (sc.checkTimers.find? (fun tmm => tmm.id = i) = some tm →
        sc.blinkHistory.length ≠ 1 →
        fireCheck i sc
          = { sc with checkTimers := sc.checkTimers.filter (fun tmm => tmm.id ≠ i) }) := by
  refine ⟨?_, ?_, ?_⟩
  · intro hb hav hdur hlen hgap
    have h := blinkCore_fall_double (avgBlinkOf f) t s hb hav hdur hlen hgap
    exact ⟨h.1, h.2.1, h.2.2.1⟩
  · intro hb hav hdur hlen hgap
    exact blinkCore_fall_two_wide (avgBlinkOf f) t s hb hav hdur hlen hgap
  · intro hfind hlen
    exact fireCheck_noop i tm sc hfind (by rintro ⟨hl, -⟩; exact hlen hl)

/-- Witness for C5 at concrete inputs: with history [1100] and a blink
completing at 1300 (gap 200 < 500) a single no candidate is emitted and
the history cleared; with the blink completing at 1601 instead (gap 501)
the state just accumulates the history with no submission and no check;
and a check firing over a two-entry history is a no-op. -/
theorem c5_double_blink_witness :
    (detectBlink emptyFrame 1300
        { initEngine with
          blinkStartTime := 1200, blinkHistory := [1100], blinkEvents := [1100],
          checkTimers := [⟨1, 1900⟩], nextId := 2, lastBlinkTime := 1100,
          isBlinking := true }).rawLog = [⟨.no, .blink, 1300⟩] ∧
      detectBlink emptyFrame 1601
          { initEngine with
            blinkStartTime := 1400, blinkHistory := [1100], blinkEvents := [1100],
            checkTimers := [⟨1, 1900⟩], nextId := 2, lastBlinkTime := 1100,
            isBlinking := true }
        = { initEngine with
            blinkStartTime := 1400, blinkHistory := [1100, 1601],
            blinkEvents := [1100, 1601], checkTimers := [⟨1, 1900⟩], nextId := 2,
            lastBlinkTime := 1601 } ∧
      fireCheck 1
          { initEngine with
            blinkHistory := [1100, 1601], checkTimers := [⟨1, 1900⟩], nextId := 2 }
        = { initEngine with
            blinkHistory := [1100, 1601], checkTimers := [], nextId := 2 } := by
  have havE : avgBlinkOf emptyFrame < 1/2 := by
    simp [avgBlinkOf, scoreOf, emptyFrame]
  refine ⟨?_, ?_, ?_⟩
  · have h := (c5_double_blink_window emptyFrame 1300
      { initEngine with
        blinkStartTime := 1200, blinkHistory := [1100], blinkEvents := [1100],
        checkTimers := [⟨1, 1900⟩], nextId := 2, lastBlinkTime := 1100,
        isBlinking := true } 1 ⟨1, 1900⟩ initEngine).1 rfl havE (by decide)
      (by norm_num [initEngine]) (by norm_num [initEngine])
    rw [h.1]
    norm_num [initEngine]
  · have h := (c5_double_blink_window emptyFrame 1601
      { initEngine with
        blinkStartTime := 1400, blinkHistory := [1100], blinkEvents := [1100],
        checkTimers := [⟨1, 1900⟩], nextId := 2, lastBlinkTime := 1100,
        isBlinking := true } 1 ⟨1, 1900⟩ initEngine).2.1 rfl havE (by decide)
      (by norm_num [initEngine]) (by norm_num [initEngine])
    rw [h]
    norm_num [initEngine]
  · have h := (c5_double_blink_window emptyFrame 1601 initEngine 1 ⟨1, 1900⟩
      { initEngine with
        blinkHistory := [1100, 1601], checkTimers := [⟨1, 1900⟩], nextId := 2 }).2.2
      (by simp) (by simp [initEngine])
    rw [h]
    norm_num

/-- The blink detector never reads or writes the active gesture. -/
theorem detectBlink_activeGesture_comm (f : Frame) (t : ℤ) (s : EngineState)
    (g : GestureType) :
    detectBlink f t { s with activeGesture := g }
      = { detectBlink f t s with activeGesture := g } := by
  simp only [detectBlink, blinkCore]
  split_ifs <;> rfl

/-- The smile detector never reads or writes the active gesture. -/
theorem detectSmile_activeGesture_comm (sqrtQ : ℚ → ℚ) (f : Frame) (t : ℤ)
    (s : EngineState) (g : GestureType) :
    detectSmile sqrtQ f t { s with activeGesture := g }
      = { detectSmile sqrtQ f t s with activeGesture := g } := by
  rw [detectSmile, detectSmile]
  cases hw : mouthWidthOf sqrtQ f with
  | none => rfl
  | some w =>
    simp only [smileCore]
    split_ifs <;> rfl

/-- The nod detector never reads or writes the active gesture. -/
theorem detectNod_activeGesture_comm (f : Frame) (t : ℤ) (s : EngineState)
    (g : GestureType) :
    detectNod f t { s with activeGesture := g }
      = { detectNod f t s with activeGesture := g } := by
  rw [detectNod, detectNod]
  cases hp : pitchOf f with
  | none => rfl
  | some p =>
    simp only [nodCore, nodDecide, nodFlag]
    split_ifs <;> rfl

/-- The wave detector never reads or writes the active gesture. -/
theorem detectHandWave_activeGesture_comm (sqrtQ : ℚ → ℚ) (f : Frame) (t : ℤ)
    (s : EngineState) (g : GestureType) :
    detectHandWave sqrtQ f t { s with activeGesture := g }
      = { detectHandWave sqrtQ f t s with activeGesture := g } := by
  rw [detectHandWave, detectHandWave]
  cases hw : wavePointOf f with
  | none => rfl
  | some pt =>
    simp only [waveCore, waveDecide, waveFlag]
    split_ifs <;> rfl

/-- The blink detector leaves the fields owned by the smile, nod and wave
detectors unchanged. -/
theorem detectBlink_others (f : Frame) (t : ℤ) (s : EngineState) :
    (detectBlink f t s).neutralMouthWidth = s.neutralMouthWidth ∧
      (detectBlink f t s).isSmiling = s.isSmiling ∧
      (detectBlink f t s).smileStartTime = s.smileStartTime ∧
      (detectBlink f t s).pendingSmileResponse = s.pendingSmileResponse ∧
      (detectBlink f t s).neutralHeadPitch = s.neutralHeadPitch ∧
      (detectBlink f t s).isNodding = s.isNodding ∧
      (detectBlink f t s).nodCount = s.nodCount ∧
      (detectBlink f t s).lastNodTime = s.lastNodTime ∧
      (detectBlink f t s).pendingNodResponse = s.pendingNodResponse ∧
      (detectBlink f t s).handPositionHistory = s.handPositionHistory ∧
      (detectBlink f t s).waveCount = s.waveCount ∧
      (detectBlink f t s).lastWaveTime = s.lastWaveTime ∧
      (detectBlink f t s).isWaving = s.isWaving ∧
      (detectBlink f t s).pendingWaveResponse = s.pendingWaveResponse := by
  simp only [detectBlink, blinkCore]
  split_ifs <;>
    simp [processGestureResponse, setPending, clearGestureTimeout]

/-- The smile detector leaves the fields owned by the blink, nod and wave
detectors unchanged. -/
theorem detectSmile_others (sqrtQ : ℚ → ℚ) (f : Frame) (t : ℤ) (s : EngineState) :
    (detectSmile sqrtQ f t s).isBlinking = s.isBlinking ∧
      (detectSmile sqrtQ f t s).blinkStartTime = s.blinkStartTime ∧
      (detectSmile sqrtQ f t s).blinkHistory = s.blinkHistory ∧
      (detectSmile sqrtQ f t s).lastBlinkTime = s.lastBlinkTime ∧
      (detectSmile sqrtQ f t s).pendingBlinkResponse = s.pendingBlinkResponse ∧
      (detectSmile sqrtQ f t s).blinkEvents = s.blinkEvents ∧
      (detectSmile sqrtQ f t s).neutralHeadPitch = s.neutralHeadPitch ∧
      (detectSmile sqrtQ f t s).isNodding = s.isNodding ∧
      (detectSmile sqrtQ f t s).nodCount = s.nodCount ∧
      (detectSmile sqrtQ f t s).lastNodTime = s.lastNodTime ∧
      (detectSmile sqrtQ f t s).pendingNodResponse = s.pendingNodResponse ∧
      (detectSmile sqrtQ f t s).handPositionHistory = s.handPositionHistory ∧
      (detectSmile sqrtQ f t s).waveCount = s.waveCount ∧
      (detectSmile sqrtQ f t s).lastWaveTime = s.lastWaveTime ∧
      (detectSmile sqrtQ f t s).isWaving = s.isWaving ∧
      (detectSmile sqrtQ f t s).pendingWaveResponse = s.pendingWaveResponse := by
  rw [detectSmile]
  cases hw : mouthWidthOf sqrtQ f with
  | none => simp
  | some w =>
    simp only [smileCore]
    split_ifs <;>
      simp [processGestureResponse, setPending, clearGestureTimeout]

/-- The nod detector leaves the fields owned by the blink, smile and wave
detectors unchanged. -/
theorem detectNod_others (f : Frame) (t : ℤ) (s : EngineState) :
    (detectNod f t s).isBlinking = s.isBlinking ∧
      (detectNod f t s).blinkStartTime = s.blinkStartTime ∧
      (detectNod f t s).blinkHistory = s.blinkHistory ∧
      (detectNod f t s).lastBlinkTime = s.lastBlinkTime ∧
      (detectNod f t s).pendingBlinkResponse = s.pendingBlinkResponse ∧
      (detectNod f t s).blinkEvents = s.blinkEvents ∧
      (detectNod f t s).neutralMouthWidth = s.neutralMouthWidth ∧
      (detectNod f t s).isSmiling = s.isSmiling ∧
      (detectNod f t s).smileStartTime = s.smileStartTime ∧
      (detectNod f t s).pendingSmileResponse = s.pendingSmileResponse ∧
      (detectNod f t s).handPositionHistory = s.handPositionHistory ∧
      (detectNod f t s).waveCount = s.waveCount ∧
      (detectNod f t s).lastWaveTime = s.lastWaveTime ∧
      (detectNod f t s).isWaving = s.isWaving ∧
      (detectNod f t s).pendingWaveResponse = s.pendingWaveResponse := by
  rw [detectNod]
  cases hp : pitchOf f with
  | none => simp
  | some p =>
    simp only [nodCore, nodDecide, nodFlag]
    split_ifs <;>
      simp [processGestureResponse, setPending, clearGestureTimeout]

/-- The wave detector leaves the fields owned by the blink, smile and nod
detectors unchanged. -/
theorem detectHandWave_others (sqrtQ : ℚ → ℚ) (f : Frame) (t : ℤ) (s : EngineState) :
    (detectHandWave sqrtQ f t s).isBlinking = s.isBlinking ∧
      (detectHandWave sqrtQ f t s).blinkStartTime = s.blinkStartTime ∧
      (detectHandWave sqrtQ f t s).blinkHistory = s.blinkHistory ∧
      (detectHandWave sqrtQ f t s).lastBlinkTime = s.lastBlinkTime ∧
      (detectHandWave sqrtQ f t s).pendingBlinkResponse = s.pendingBlinkResponse ∧
      (detectHandWave sqrtQ f t s).blinkEvents = s.blinkEvents ∧
      (detectHandWave sqrtQ f t s).neutralMouthWidth = s.neutralMouthWidth ∧
      (detectHandWave sqrtQ f t s).isSmiling = s.isSmiling ∧
      (detectHandWave sqrtQ f t s).smileStartTime = s.smileStartTime ∧
      (detectHandWave sqrtQ f t s).pendingSmileResponse = s.pendingSmileResponse ∧
      (detectHandWave sqrtQ f t s).neutralHeadPitch = s.neutralHeadPitch ∧
      (detectHandWave sqrtQ f t s).isNodding = s.isNodding ∧
      (detectHandWave sqrtQ f t s).nodCount = s.nodCount ∧
      (detectHandWave sqrtQ f t s).lastNodTime = s.lastNodTime ∧
      (detectHandWave sqrtQ f t s).pendingNodResponse = s.pendingNodResponse := by
  rw [detectHandWave]
  cases hw : wavePointOf f with
  | none => simp
  | some pt =>
    simp only [waveCore, waveDecide, waveFlag]
    split_ifs <;>
      simp [processGestureResponse, setPending, clearGestureTimeout]

/-- The state fields owned by the blink detector. -/
def blinkOwned (s : EngineState) :
    Bool × ℤ × List ℤ × ℤ × Option Resp × List ℤ :=
  (s.isBlinking, s.blinkStartTime, s.blinkHistory, s.lastBlinkTime,
    s.pendingBlinkResponse, s.blinkEvents)

/-- The state fields owned by the smile detector. -/
def smileOwned (s : EngineState) : ℚ × Bool × ℤ × Option Resp :=
  (s.neutralMouthWidth, s.isSmiling, s.smileStartTime, s.pendingSmileResponse)

/-- The state fields owned by the nod detector. -/
def nodOwned (s : EngineState) : ℚ × Bool × ℕ × ℤ × Option Resp :=
  (s.neutralHeadPitch, s.isNodding, s.nodCount, s.lastNodTime, s.pendingNodResponse)

/-- The state fields owned by the wave detector. -/
def waveOwned (s : EngineState) : List Point × ℕ × ℤ × Bool × Option Resp :=
  (s.handPositionHistory, s.waveCount, s.lastWaveTime, s.isWaving,
    s.pendingWaveResponse)

/-- Counterexample for C2: with blink as the active gesture, processing a
face frame still runs the smile detector, which changes its owned state
field neutralMouthWidth (0 becomes 4) and thereby consumes the frame. -/
theorem c2_active_gesture_cex :
    (selectQuestion initEngine).activeGesture = .blink ∧
      (selectQuestion initEngine).neutralMouthWidth = 0 ∧
      (onFrame (fun x => x) fullFrame 1000
        (selectQuestion initEngine)).neutralMouthWidth = 4 := by
  have hq : selectQuestion initEngine = { initEngine with isDetectionActive := true } := by
    norm_num [selectQuestion, resetGestureFields, clearGestureTimeout, initEngine]
  refine ⟨rfl, rfl, ?_⟩
  rw [hq]
  have havF : avgBlinkOf fullFrame = 0 := by
    have hbs : fullFrame.blendshapes = [] := rfl
    simp [avgBlinkOf, scoreOf, hbs]
  have hb : detectBlink fullFrame 1000 { initEngine with isDetectionActive := true }
      = { initEngine with isDetectionActive := true } := by
    rw [detectBlink, havF]
    norm_num [blinkCore, initEngine]
  have hs : detectSmile (fun x => x) fullFrame 1000
      { initEngine with isDetectionActive := true }
      = { initEngine with isDetectionActive := true, neutralMouthWidth := 4 } := by
    rw [detectSmile, fullFrame_width]
    norm_num [smileCore, initEngine]
  have hn : detectNod fullFrame 1000
      { initEngine with isDetectionActive := true, neutralMouthWidth := 4 }
      = { initEngine with
          isDetectionActive := true, neutralMouthWidth := 4,
          neutralHeadPitch := 9 } := by
    rw [detectNod, fullFrame_pitch]
    norm_num [nodCore, initEngine]
  have hwv : wavePointOf fullFrame = none := rfl
  show (detectHandWave (fun x => x) fullFrame 1000 (detectNod fullFrame 1000
    (detectSmile (fun x => x) fullFrame 1000 (detectBlink fullFrame 1000
      { initEngine with isDetectionActive := true })))).neutralMouthWidth = 4
  rw [hb, hs, hn, detectHandWave, hwv]

/-- C2 (amended): every face frame is multiplexed to all four detectors
regardless of the active gesture: the per-frame detection step is
invariant under changing activeGesture (which only selects the canvas
visualization), and each detector leaves the state fields owned by the
other three detectors unchanged. -/
theorem c2_all_detectors_run :
    (∀ (sqrtQ : ℚ → ℚ) (f : Frame) (t : ℤ) (s : EngineState) (g : GestureType),
      processFaceFrame sqrtQ f t { s with activeGesture := g }
        = { processFaceFrame sqrtQ f t s with activeGesture := g }) ∧
      (∀ (f : Frame) (t : ℤ) (s : EngineState),
        smileOwned (detectBlink f t s) = smileOwned s ∧
          nodOwned (detectBlink f t s) = nodOwned s ∧
          waveOwned (detectBlink f t s) = waveOwned s) ∧
      (∀ (sqrtQ : ℚ → ℚ) (f : Frame) (t : ℤ) (s : EngineState),
        blinkOwned (detectSmile sqrtQ f t s) = blinkOwned s ∧
          nodOwned (detectSmile sqrtQ f t s) = nodOwned s ∧
          waveOwned (detectSmile sqrtQ f t s) = waveOwned s) ∧
      (∀ (f : Frame) (t : ℤ) (s : EngineState),
        blinkOwned (detectNod f t s) = blinkOwned s ∧
          smileOwned (detectNod f t s) = smileOwned s ∧
          waveOwned (detectNod f t s) = waveOwned s) ∧
      (∀ (sqrtQ : ℚ → ℚ) (f : Frame) (t : ℤ) (s : EngineState),
        blinkOwned (detectHandWave sqrtQ f t s) = blinkOwned s ∧
          smileOwned (detectHandWave sqrtQ f t s) = smileOwned s ∧
          nodOwned (detectHandWave sqrtQ f t s) = nodOwned s) := by
  refine ⟨?_, ?_, ?_, ?_, ?_⟩
  · intro sqrtQ f t s g
    rw [processFaceFrame, processFaceFrame, detectBlink_activeGesture_comm,
      detectSmile_activeGesture_comm, detectNod_activeGesture_comm,
      detectHandWave_activeGesture_comm]
  · intro f t s
    obtain ⟨h1, h2, h3, h4, h5, h6, h7, h8, h9, h10, h11, h12, h13, h14⟩ :=
      detectBlink_others f t s
    simp [smileOwned, nodOwned, waveOwned, h1, h2, h3, h4, h5, h6, h7, h8, h9,
      h10, h11, h12, h13, h14]
  · intro sqrtQ f t s
    obtain ⟨h1, h2, h3, h4, h5, h6, h7, h8, h9, h10, h11, h12, h13, h14, h15, h16⟩ :=
      detectSmile_others sqrtQ f t s
    simp [blinkOwned, nodOwned, waveOwned, h1, h2, h3, h4, h5, h6, h7, h8, h9,
      h10, h11, h12, h13, h14, h15, h16]
  · intro f t s
    obtain ⟨h1, h2, h3, h4, h5, h6, h7, h8, h9, h10, h11, h12, h13, h14, h15⟩ :=
      detectNod_others f t s
    simp [blinkOwned, smileOwned, waveOwned, h1, h2, h3, h4, h5, h6, h7, h8, h9,
      h10, h11, h12, h13, h14, h15]
  · intro sqrtQ f t s
    obtain ⟨h1, h2, h3, h4, h5, h6, h7, h8, h9, h10, h11, h12, h13, h14, h15⟩ :=
      detectHandWave_others sqrtQ f t s
    simp [blinkOwned, smileOwned, nodOwned, h1, h2, h3, h4, h5, h6, h7, h8, h9,
      h10, h11, h12, h13, h14, h15]

/-- Counterexample for C8: a blink candidate submitted at 1000 leaves a
hold timer due at 1800; switching the active gesture to nod does not
cancel it, and when it fires the FinalSignal for the old blink candidate
is emitted after the switch. -/
theorem c8_switch_pending_survives_cex :
    (switchGesture .nod (processGestureResponse .yes .blink 1000
        (selectQuestion initEngine))).holdTimers = [⟨1, 1800, .yes, .blink⟩] ∧
      (fireHold 1 (switchGesture .nod (processGestureResponse .yes .blink 1000
        (selectQuestion initEngine)))).finalLog = [.yes] := by
  have hq : selectQuestion initEngine = { initEngine with isDetectionActive := true } := by
    norm_num [selectQuestion, resetGestureFields, clearGestureTimeout, initEngine]
  have h1 : processGestureResponse .yes .blink 1000
      { initEngine with isDetectionActive := true }
      = { initEngine with
          isDetectionActive := true, pendingBlinkResponse := some .yes,
          holdTimers := [⟨1, 1800, .yes, .blink⟩], gestureTimeoutRef := some 1,
          nextId := 2, rawLog := [⟨.yes, .blink, 1000⟩] } := by
    norm_num [processGestureResponse, setPending, clearGestureTimeout, initEngine]
  have h2 : switchGesture .nod
      { initEngine with
        isDetectionActive := true, pendingBlinkResponse := some .yes,
        holdTimers := [⟨1, 1800, .yes, .blink⟩], gestureTimeoutRef := some 1,
        nextId := 2, rawLog := [⟨.yes, .blink, 1000⟩] }
      = { initEngine with
          isDetectionActive := true, activeGesture := .nod,
          holdTimers := [⟨1, 1800, .yes, .blink⟩], gestureTimeoutRef := some 1,
          nextId := 2, rawLog := [⟨.yes, .blink, 1000⟩] } := by
    norm_num [switchGesture, resetGestureFields, initEngine]
  rw [hq, h1, h2]
  refine ⟨rfl, ?_⟩
  norm_num [fireHold, handleGestureResponse, initEngine]

/-- C8 (amended): switching the active gesture replaces the gesture state
with a fresh initial record — baselines and counters zeroed, pending
response fields cleared — but does NOT cancel the outstanding confirmation
timeout: the hold timer and its ref survive the switch, and when it fires
(detection still being active) the FinalSignal carrying the old gesture's
candidate value is still emitted.  Only selecting a new question clears
the outstanding hold timer. -/
theorem c8_switch_reset_no_cancel (g : GestureType) (s : EngineState) (tm : HoldTimer) :
    (switchGesture g s).holdTimers = s.holdTimers ∧
      (switchGesture g s).gestureTimeoutRef = s.gestureTimeoutRef ∧
      (switchGesture g s).pendingBlinkResponse = none ∧
      (switchGesture g s).pendingSmileResponse = none ∧
      (switchGesture g s).pendingNodResponse = none ∧
      (switchGesture g s).pendingWaveResponse = none ∧
      (switchGesture g s).isBlinking = false ∧
      (switchGesture g s).blinkHistory = [] ∧
      (switchGesture g s).neutralMouthWidth = 0 ∧
      (switchGesture g s).neutralHeadPitch = 0 ∧
      (switchGesture g s).nodCount = 0 ∧
      (switchGesture g s).waveCount = 0 ∧
      (switchGesture g s).handPositionHistory = [] ∧
      (switchGesture g s).activeGesture = g ∧
      (s.holdTimers = [tm] → s.isDetectionActive = true →
        (fireHold tm.id (switchGesture g s)).finalLog = s.finalLog ++ [tm.resp]) ∧
      (GateWf s → (selectQuestion s).holdTimers = []) := by
  refine ⟨rfl, rfl, rfl, rfl, rfl, rfl, rfl, rfl, rfl, rfl, rfl, rfl, rfl, rfl, ?_, ?_⟩
  · intro hh hact
    have hh2 : (switchGesture g s).holdTimers = [tm] := hh
    have hact2 : (switchGesture g s).isDetectionActive = true := hact
    exact (fireHold_singleton tm (switchGesture g s) hh2 hact2).1
  · intro hwf
    have h := clearGestureTimeout_holdTimers s hwf
    show (clearGestureTimeout s).holdTimers = []
    exact h

/-- Witness for C8 (amended) at concrete inputs: the timer surviving the
switch in the counterexample state fires and emits yes, and a question
selection from a well-formed state leaves no timer. -/
theorem c8_switch_reset_witness :
    (fireHold 1 (switchGesture .nod
        { initEngine with
          isDetectionActive := true, pendingBlinkResponse := some .yes,
          holdTimers := [⟨1, 1800, .yes, .blink⟩], gestureTimeoutRef := some 1,
          nextId := 2, rawLog := [⟨.yes, .blink, 1000⟩] })).finalLog = [.yes] ∧
      (selectQuestion initEngine).holdTimers = [] := by
  constructor
  · have h := (c8_switch_reset_no_cancel .nod
      { initEngine with
        isDetectionActive := true, pendingBlinkResponse := some .yes,
        holdTimers := [⟨1, 1800, .yes, .blink⟩], gestureTimeoutRef := some 1,
        nextId := 2, rawLog := [⟨.yes, .blink, 1000⟩] }
      ⟨1, 1800, .yes, .blink⟩).2.2.2.2.2.2.2.2.2.2.2.2.2.2.1 rfl rfl
    rw [h]
    norm_num [initEngine]
  · have hwf : GateWf initEngine := by
      constructor
      · intro tm hm
        exact absurd hm (List.not_mem_nil tm)
      · simp [initEngine]
    exact (c8_switch_reset_no_cancel .nod initEngine
      ⟨1, 1800, .yes, .blink⟩).2.2.2.2.2.2.2.2.2.2.2.2.2.2.2 hwf

/-- The smile-typed raw candidates among the submissions. -/
def smileCands (l : List RawCandidate) : List RawCandidate :=
  l.filter (fun c => c.gestureType = .smile)

theorem smileCands_append (l1 l2 : List RawCandidate) :
    smileCands (l1 ++ l2) = smileCands l1 ++ smileCands l2 := by
  simp [smileCands]

theorem detectBlink_isDetectionActive (f : Frame) (t : ℤ) (s : EngineState) :
    (detectBlink f t s).isDetectionActive = s.isDetectionActive := by
  simp only [detectBlink, blinkCore]
  split_ifs <;> simp [processGestureResponse_isDetectionActive]

theorem detectSmile_isDetectionActive (sqrtQ : ℚ → ℚ) (f : Frame) (t : ℤ)
    (s : EngineState) :
    (detectSmile sqrtQ f t s).isDetectionActive = s.isDetectionActive := by
  rw [detectSmile]
  cases hw : mouthWidthOf sqrtQ f with
  | none => rfl
  | some w =>
    simp only [smileCore]
    split_ifs <;> simp [processGestureResponse_isDetectionActive]

theorem detectNod_isDetectionActive (f : Frame) (t : ℤ) (s : EngineState) :
    (detectNod f t s).isDetectionActive = s.isDetectionActive := by
  rw [detectNod]
  cases hp : pitchOf f with
  | none => rfl
  | some p =>
    simp only [nodCore, nodDecide, nodFlag]
    split_ifs <;> simp [processGestureResponse_isDetectionActive]

theorem detectHandWave_isDetectionActive (sqrtQ : ℚ → ℚ) (f : Frame) (t : ℤ)
    (s : EngineState) :
    (detectHandWave sqrtQ f t s).isDetectionActive = s.isDetectionActive := by
  rw [detectHandWave]
  cases hw : wavePointOf f with
  | none => rfl
  | some pt =>
    simp only [waveCore, waveDecide, waveFlag]
    split_ifs <;> simp [processGestureResponse_isDetectionActive]

theorem smileCands_detectBlink (f : Frame) (t : ℤ) (s : EngineState) :
    smileCands (detectBlink f t s).rawLog = smileCands s.rawLog := by
  simp only [detectBlink, blinkCore]
  split_ifs <;> simp [processGestureResponse_rawLog, smileCands]

theorem smileCands_detectNod (f : Frame) (t : ℤ) (s : EngineState) :
    smileCands (detectNod f t s).rawLog = smileCands s.rawLog := by
  rw [detectNod]
  cases hp : pitchOf f with
  | none => rfl
  | some p =>
    simp only [nodCore, nodDecide, nodFlag]
    split_ifs <;> simp [processGestureResponse_rawLog, smileCands]

theorem smileCands_detectHandWave (sqrtQ : ℚ → ℚ) (f : Frame) (t : ℤ)
    (s : EngineState) :
    smileCands (detectHandWave sqrtQ f t s).rawLog = smileCands s.rawLog := by
  rw [detectHandWave]
  cases hw : wavePointOf f with
  | none => rfl
  | some pt =>
    simp only [waveCore, waveDecide, waveFlag]
    split_ifs <;> simp [processGestureResponse_rawLog, smileCands]

theorem fireHold_rawLog (i : ℕ) (s : EngineState) :
    (fireHold i s).rawLog = s.rawLog := by
  unfold fireHold
  cases h : s.holdTimers.find? (fun tm => tm.id = i) with
  | none => rfl
  | some tm =>
    simp only [handleGestureResponse]
    split_ifs <;> rfl

theorem fireHold_neutralMouthWidth (i : ℕ) (s : EngineState) :
    (fireHold i s).neutralMouthWidth = s.neutralMouthWidth := by
  unfold fireHold
  cases h : s.holdTimers.find? (fun tm => tm.id = i) with
  | none => rfl
  | some tm =>
    simp only [handleGestureResponse]
    split_ifs <;> rfl

/-- Firing a hold timer either does nothing at all or leaves detection
deactivated. -/
theorem fireHold_active_cases (i : ℕ) (s : EngineState) :
    fireHold i s = s ∨ (fireHold i s).isDetectionActive = false := by
  unfold fireHold
  cases h : s.holdTimers.find? (fun tm => tm.id = i) with
  | none => exact Or.inl rfl
  | some tm =>
    right
    simp only [handleGestureResponse]
    split_ifs with ha
    · rfl
    · show s.isDetectionActive = false
      revert ha
      cases s.isDetectionActive <;> simp

theorem fireCheck_neutralMouthWidth (i : ℕ) (s : EngineState) :
    (fireCheck i s).neutralMouthWidth = s.neutralMouthWidth := by
  cases h : s.checkTimers.find? (fun tm => tm.id = i) with
  | none => simp only [fireCheck, h]
  | some tm =>
    simp only [fireCheck, h]
    split_ifs <;> simp [processGestureResponse, setPending, clearGestureTimeout]

theorem fireCheck_pendingSmile (i : ℕ) (s : EngineState) :
    (fireCheck i s).pendingSmileResponse = s.pendingSmileResponse := by
  cases h : s.checkTimers.find? (fun tm => tm.id = i) with
  | none => simp only [fireCheck, h]
  | some tm =>
    simp only [fireCheck, h]
    split_ifs <;> simp [processGestureResponse, setPending, clearGestureTimeout]

theorem fireCheck_isDetectionActive (i : ℕ) (s : EngineState) :
    (fireCheck i s).isDetectionActive = s.isDetectionActive := by
  cases h : s.checkTimers.find? (fun tm => tm.id = i) with
  | none => simp only [fireCheck, h]
  | some tm =>
    simp only [fireCheck, h]
    split_ifs <;> simp [processGestureResponse, setPending, clearGestureTimeout]

theorem smileCands_fireCheck (i : ℕ) (s : EngineState) :
    smileCands (fireCheck i s).rawLog = smileCands s.rawLog := by
  cases h : s.checkTimers.find? (fun tm => tm.id = i) with
  | none => simp only [fireCheck, h]
  | some tm =>
    simp only [fireCheck, h]
    split_ifs <;> simp [processGestureResponse_rawLog, smileCands]

/-- While a smile response is pending, an above-threshold frame neither
submits anything nor changes the pending response, the baseline, or the
detection flag. -/
theorem smileCore_blocked (w : ℚ) (t : ℤ) (s : EngineState)
    (hnz : ¬s.neutralMouthWidth = 0)
    (hgt : w > s.neutralMouthWidth * (115 / 100))
    (hp : s.pendingSmileResponse.isSome = true) :
    (smileCore w t s).rawLog = s.rawLog ∧
      (smileCore w t s).pendingSmileResponse = s.pendingSmileResponse ∧
      (smileCore w t s).neutralMouthWidth = s.neutralMouthWidth ∧
      (smileCore w t s).isDetectionActive = s.isDetectionActive := by
  simp only [smileCore, if_neg hnz]
  by_cases hsm : s.isSmiling = false
  · rw [if_pos (And.intro hgt hsm)]
    exact ⟨rfl, rfl, rfl, rfl⟩
  · have hsm' : s.isSmiling = true := by
      revert hsm; cases s.isSmiling <;> simp
    rw [if_neg (fun hc => hsm hc.2), if_pos (And.intro hgt hsm'),
      if_neg (fun hc => ?_)]
    · exact ⟨rfl, rfl, rfl, rfl⟩
    · rw [hc.2] at hp
      exact Bool.noConfusion hp

theorem fullFrame_avg : avgBlinkOf fullFrame = 0 := by
  have hbs : fullFrame.blendshapes = [] := rfl
  simp [avgBlinkOf, scoreOf, hbs]

/-- On a frame whose eye scores read 0, the blink detector is the
identity whenever the blinking flag is down. -/
theorem detectBlink_fullFrame_id (T : ℤ) (S : EngineState)
    (h : S.isBlinking = false) : detectBlink fullFrame T S = S := by
  rw [detectBlink, fullFrame_avg]
  unfold blinkCore
  rw [if_neg (fun hc => by norm_num at hc : ¬((0:ℚ) > 1/2 ∧ S.isBlinking = false)),
    if_neg (fun hc => by rw [h] at hc; exact Bool.noConfusion hc.2
      : ¬((0:ℚ) < 1/2 ∧ S.isBlinking = true))]

/-- fullFrame has no landmark 454, so the wave detector skips it. -/
theorem detectHandWave_fullFrame_id (sqrtQ : ℚ → ℚ) (T : ℤ) (S : EngineState) :
    detectHandWave sqrtQ fullFrame T S = S := by
  rw [detectHandWave, show wavePointOf fullFrame = none from rfl]

/-- Firing the unique outstanding hold timer of a running session always
delivers the response — the stale-captured guard passes even though the
current isDetectionActive may already be false — clears all pending
responses and removes the timer, while leaving the smile flag, start
time and baseline alone. -/
theorem fireHoldStale_singleton (tm : HoldTimer) (s : EngineState)
    (h : s.holdTimers = [tm]) :
    (fireHoldStale tm.id s).finalLog = s.finalLog ++ [tm.resp] ∧
      (fireHoldStale tm.id s).pendingSmileResponse = none ∧
      (fireHoldStale tm.id s).holdTimers = [] ∧
      (fireHoldStale tm.id s).isSmiling = s.isSmiling ∧
      (fireHoldStale tm.id s).smileStartTime = s.smileStartTime ∧
      (fireHoldStale tm.id s).neutralMouthWidth = s.neutralMouthWidth := by
  have hfind : s.holdTimers.find? (fun t => t.id = tm.id) = some tm := by
    rw [h]; simp
  unfold fireHoldStale
  rw [hfind]
  simp [handleGestureResponseStale, h]

theorem fireHoldStale_rawLog (i : ℕ) (s : EngineState) :
    (fireHoldStale i s).rawLog = s.rawLog := by
  unfold fireHoldStale
  cases h : s.holdTimers.find? (fun tm => tm.id = i) with
  | none => rfl
  | some tm => rfl

/-- Counterexample for C7, under the faithful semantics of a running
session (stale isDetectionActive captures): one uninterrupted smile,
with the width above threshold the whole time, produces TWO yes smile
candidates and two FinalSignals.  Baseline 2 is captured; a frame at 100
arms the smile; at 1300 the 1200 ms duration is reached and yes is
submitted; the hold timer fires at 2100, shows the response and clears
the pending guard — but the loop keeps running, so the frame at 2200 (the
smile never stopped) submits a second yes, finalized at 3000. -/
theorem c7_smile_double_yes_cex :
    (runEvsStale (fun x => x)
        { initEngine with neutralMouthWidth := 2, isDetectionActive := true }
        [.evFrame fullFrame 100, .evFrame fullFrame 1300, .evFireHold 1,
          .evFrame fullFrame 2200, .evFireHold 2]).rawLog
      = [⟨.yes, .smile, 1300⟩, ⟨.yes, .smile, 2200⟩] ∧
      (runEvsStale (fun x => x)
        { initEngine with neutralMouthWidth := 2, isDetectionActive := true }
        [.evFrame fullFrame 100, .evFrame fullFrame 1300, .evFireHold 1,
          .evFrame fullFrame 2200, .evFireHold 2]).finalLog
      = [.yes, .yes] := by
  have hs1 : detectSmile (fun x => x) fullFrame 100
      { initEngine with neutralMouthWidth := 2, isDetectionActive := true }
      = { initEngine with
          neutralMouthWidth := 2, isDetectionActive := true,
          isSmiling := true, smileStartTime := 100 } := by
    rw [detectSmile, fullFrame_width]
    norm_num [smileCore, initEngine]
  have hn1 : detectNod fullFrame 100
      { initEngine with
        neutralMouthWidth := 2, isDetectionActive := true,
        isSmiling := true, smileStartTime := 100 }
      = { initEngine with
          neutralMouthWidth := 2, isDetectionActive := true,
          isSmiling := true, smileStartTime := 100, neutralHeadPitch := 9 } := by
    rw [detectNod, fullFrame_pitch]
    norm_num [nodCore, initEngine]
  have h1 : processFaceFrame (fun x => x) fullFrame 100
      { initEngine with neutralMouthWidth := 2, isDetectionActive := true }
      = { initEngine with
          neutralMouthWidth := 2, isDetectionActive := true,
          isSmiling := true, smileStartTime := 100, neutralHeadPitch := 9 } := by
    rw [processFaceFrame, detectBlink_fullFrame_id 100 _ rfl, hs1, hn1,
      detectHandWave_fullFrame_id]
  have hs2 : detectSmile (fun x => x) fullFrame 1300
      { initEngine with
        neutralMouthWidth := 2, isDetectionActive := true,
        isSmiling := true, smileStartTime := 100, neutralHeadPitch := 9 }
      = { initEngine with
          neutralMouthWidth := 2, isDetectionActive := true,
          isSmiling := true, smileStartTime := 100, neutralHeadPitch := 9,
          pendingSmileResponse := some .yes,
          holdTimers := [⟨1, 2100, .yes, .smile⟩], gestureTimeoutRef := some 1,
          nextId := 2, rawLog := [⟨.yes, .smile, 1300⟩] } := by
    rw [detectSmile, fullFrame_width]
    norm_num [smileCore, processGestureResponse, setPending, clearGestureTimeout,
      initEngine]
  have hn2 : detectNod fullFrame 1300
      { initEngine with
        neutralMouthWidth := 2, isDetectionActive := true,
        isSmiling := true, smileStartTime := 100, neutralHeadPitch := 9,
        pendingSmileResponse := some .yes,
        holdTimers := [⟨1, 2100, .yes, .smile⟩], gestureTimeoutRef := some 1,
        nextId := 2, rawLog := [⟨.yes, .smile, 1300⟩] }
      = { initEngine with
          neutralMouthWidth := 2, isDetectionActive := true,
          isSmiling := true, smileStartTime := 100, neutralHeadPitch := 9,
          pendingSmileResponse := some .yes,
          holdTimers := [⟨1, 2100, .yes, .smile⟩], gestureTimeoutRef := some 1,
          nextId := 2, rawLog := [⟨.yes, .smile, 1300⟩] } := by
    rw [detectNod, fullFrame_pitch]
    norm_num [nodCore, nodFlag, nodDecide, initEngine]
  have h2 : processFaceFrame (fun x => x) fullFrame 1300
      { initEngine with
        neutralMouthWidth := 2, isDetectionActive := true,
        isSmiling := true, smileStartTime := 100, neutralHeadPitch := 9 }
      = { initEngine with
          neutralMouthWidth := 2, isDetectionActive := true,
          isSmiling := true, smileStartTime := 100, neutralHeadPitch := 9,
          pendingSmileResponse := some .yes,
          holdTimers := [⟨1, 2100, .yes, .smile⟩], gestureTimeoutRef := some 1,
          nextId := 2, rawLog := [⟨.yes, .smile, 1300⟩] } := by
    rw [processFaceFrame, detectBlink_fullFrame_id 1300 _ rfl, hs2, hn2,
      detectHandWave_fullFrame_id]
  have h3 : fireHoldStale 1
      { initEngine with
        neutralMouthWidth := 2, isDetectionActive := true,
        isSmiling := true, smileStartTime := 100, neutralHeadPitch := 9,
        pendingSmileResponse := some .yes,
        holdTimers := [⟨1, 2100, .yes, .smile⟩], gestureTimeoutRef := some 1,
        nextId := 2, rawLog := [⟨.yes, .smile, 1300⟩] }
      = { initEngine with
          neutralMouthWidth := 2,
          isSmiling := true, smileStartTime := 100, neutralHeadPitch := 9,
          gestureTimeoutRef := some 1,
          nextId := 2, rawLog := [⟨.yes, .smile, 1300⟩],
          finalLog := [.yes] } := by
    norm_num [fireHoldStale, handleGestureResponseStale, initEngine]
  have hs4 : detectSmile (fun x => x) fullFrame 2200
      { initEngine with
        neutralMouthWidth := 2,
        isSmiling := true, smileStartTime := 100, neutralHeadPitch := 9,
        gestureTimeoutRef := some 1,
        nextId := 2, rawLog := [⟨.yes, .smile, 1300⟩], finalLog := [.yes] }
      = { initEngine with
          neutralMouthWidth := 2,
          isSmiling := true, smileStartTime := 100, neutralHeadPitch := 9,
          pendingSmileResponse := some .yes,
          holdTimers := [⟨2, 3000, .yes, .smile⟩], gestureTimeoutRef := some 2,
          nextId := 3, rawLog := [⟨.yes, .smile, 1300⟩, ⟨.yes, .smile, 2200⟩],
          finalLog := [.yes] } := by
    rw [detectSmile, fullFrame_width]
    norm_num [smileCore, processGestureResponse, setPending, clearGestureTimeout,
      initEngine]
  have hn4 : detectNod fullFrame 2200
      { initEngine with
        neutralMouthWidth := 2,
        isSmiling := true, smileStartTime := 100, neutralHeadPitch := 9,
        pendingSmileResponse := some .yes,
        holdTimers := [⟨2, 3000, .yes, .smile⟩], gestureTimeoutRef := some 2,
        nextId := 3, rawLog := [⟨.yes, .smile, 1300⟩, ⟨.yes, .smile, 2200⟩],
        finalLog := [.yes] }
      = { initEngine with
          neutralMouthWidth := 2,
          isSmiling := true, smileStartTime := 100, neutralHeadPitch := 9,
          pendingSmileResponse := some .yes,
          holdTimers := [⟨2, 3000, .yes, .smile⟩], gestureTimeoutRef := some 2,
          nextId := 3, rawLog := [⟨.yes, .smile, 1300⟩, ⟨.yes, .smile, 2200⟩],
          finalLog := [.yes] } := by
    rw [detectNod, fullFrame_pitch]
    norm_num [nodCore, nodFlag, nodDecide, initEngine]
  have h4 : processFaceFrame (fun x => x) fullFrame 2200
      { initEngine with
        neutralMouthWidth := 2,
        isSmiling := true, smileStartTime := 100, neutralHeadPitch := 9,
        gestureTimeoutRef := some 1,
        nextId := 2, rawLog := [⟨.yes, .smile, 1300⟩], finalLog := [.yes] }
      = { initEngine with
          neutralMouthWidth := 2,
          isSmiling := true, smileStartTime := 100, neutralHeadPitch := 9,
          pendingSmileResponse := some .yes,
          holdTimers := [⟨2, 3000, .yes, .smile⟩], gestureTimeoutRef := some 2,
          nextId := 3, rawLog := [⟨.yes, .smile, 1300⟩, ⟨.yes, .smile, 2200⟩],
          finalLog := [.yes] } := by
    rw [processFaceFrame, detectBlink_fullFrame_id 2200 _ rfl, hs4, hn4,
      detectHandWave_fullFrame_id]
  have h5 : fireHoldStale 2
      { initEngine with
        neutralMouthWidth := 2,
        isSmiling := true, smileStartTime := 100, neutralHeadPitch := 9,
        pendingSmileResponse := some .yes,
        holdTimers := [⟨2, 3000, .yes, .smile⟩], gestureTimeoutRef := some 2,
        nextId := 3, rawLog := [⟨.yes, .smile, 1300⟩, ⟨.yes, .smile, 2200⟩],
        finalLog := [.yes] }
      = { initEngine with
          neutralMouthWidth := 2,
          isSmiling := true, smileStartTime := 100, neutralHeadPitch := 9,
          gestureTimeoutRef := some 2,
          nextId := 3, rawLog := [⟨.yes, .smile, 1300⟩, ⟨.yes, .smile, 2200⟩],
          finalLog := [.yes, .yes] } := by
    norm_num [fireHoldStale, handleGestureResponseStale, initEngine]
  have hrun : runEvsStale (fun x => x)
      { initEngine with neutralMouthWidth := 2, isDetectionActive := true }
      [.evFrame fullFrame 100, .evFrame fullFrame 1300, .evFireHold 1,
        .evFrame fullFrame 2200, .evFireHold 2]
      = { initEngine with
          neutralMouthWidth := 2,
          isSmiling := true, smileStartTime := 100, neutralHeadPitch := 9,
          gestureTimeoutRef := some 2,
          nextId := 3, rawLog := [⟨.yes, .smile, 1300⟩, ⟨.yes, .smile, 2200⟩],
          finalLog := [.yes, .yes] } := by
    simp only [runEvsStale, List.foldl_cons, List.foldl_nil, stepEvStale]
    rw [h1, h2, h3, h4, h5]
  rw [hrun]
  exact ⟨rfl, rfl⟩

/-- The invariant that blocks resubmission in a running session: the
captured baseline and a pending smile response.  Unlike a deactivation
flag, this guard is cleared by the hold timer itself. -/
def SmilePendingInv (b : ℚ) (s : EngineState) : Prop :=
  s.neutralMouthWidth = b ∧ s.pendingSmileResponse.isSome = true

/-- Events of a sustained smile between two hold-timer firings: every
face frame measures a width above baseline × 1.15, and no hold timer
fires (deferred single-blink checks may). -/
def SmileSustainEv (sqrtQ : ℚ → ℚ) (b : ℚ) : Ev → Prop
  | .evFrame f _ => ∃ w, mouthWidthOf sqrtQ f = some w ∧ w > b * (115 / 100)
  | .evFireHold _ => False
  | .evFireCheck _ => True

/-- One running-session step of a sustained smile preserves the pending
guard and adds no smile candidate. -/
theorem smile_pending_step (sqrtQ : ℚ → ℚ) (b : ℚ) (hb : b ≠ 0)
    (s : EngineState) (hinv : SmilePendingInv b s) (e : Ev)
    (he : SmileSustainEv sqrtQ b e) :
    SmilePendingInv b (stepEvStale sqrtQ s e) ∧
      smileCands (stepEvStale sqrtQ s e).rawLog = smileCands s.rawLog := by
  obtain ⟨hn, hpend⟩ := hinv
  cases e with
  | evFireHold i => simp only [SmileSustainEv] at he
  | evFireCheck i =>
    simp only [stepEvStale]
    refine ⟨⟨?_, ?_⟩, smileCands_fireCheck i s⟩
    · rw [fireCheck_neutralMouthWidth]; exact hn
    · rw [fireCheck_pendingSmile]; exact hpend
  | evFrame f t =>
    simp only [stepEvStale]
    obtain ⟨w, hw, hgt⟩ := he
    rw [processFaceFrame]
    have hB := detectBlink_others f t s
    have hn1 : (detectBlink f t s).neutralMouthWidth = b := by rw [hB.1, hn]
    have hp1 : (detectBlink f t s).pendingSmileResponse.isSome = true := by
      rw [hB.2.2.2.1]; exact hpend
    have hr1 : smileCands (detectBlink f t s).rawLog = smileCands s.rawLog :=
      smileCands_detectBlink f t s
    have hS := smileCore_blocked w t (detectBlink f t s)
      (by rw [hn1]; exact hb) (by rw [hn1]; exact hgt) hp1
    have hs2 : detectSmile sqrtQ f t (detectBlink f t s)
        = smileCore w t (detectBlink f t s) := by rw [detectSmile, hw]
    set s2 := detectSmile sqrtQ f t (detectBlink f t s) with hs2def
    have hn2 : s2.neutralMouthWidth = b := by rw [hs2, hS.2.2.1, hn1]
    have hp2 : s2.pendingSmileResponse.isSome = true := by
      rw [hs2, hS.2.1]; exact hp1
    have hr2 : smileCands s2.rawLog = smileCands s.rawLog := by
      rw [hs2, hS.1]; exact hr1
    have hN := detectNod_others f t s2
    have hn3 : (detectNod f t s2).neutralMouthWidth = b := by
      rw [hN.2.2.2.2.2.2.1, hn2]
    have hp3 : (detectNod f t s2).pendingSmileResponse.isSome = true := by
      rw [hN.2.2.2.2.2.2.2.2.2.1]; exact hp2
    have hr3 : smileCands (detectNod f t s2).rawLog = smileCands s.rawLog := by
      rw [smileCands_detectNod]; exact hr2
    have hW := detectHandWave_others sqrtQ f t (detectNod f t s2)
    refine ⟨⟨?_, ?_⟩, ?_⟩
    · rw [hW.2.2.2.2.2.2.1, hn3]
    · rw [hW.2.2.2.2.2.2.2.2.2.1]; exact hp3
    · rw [smileCands_detectHandWave]; exact hr3

/-- A whole hold-fire-free sustained-smile event sequence preserves the
pending guard and adds no smile candidate. -/
theorem smile_pending_run (sqrtQ : ℚ → ℚ) (b : ℚ) (hb : b ≠ 0) (evs : List Ev) :
    ∀ s : EngineState, SmilePendingInv b s →
      (∀ e ∈ evs, SmileSustainEv sqrtQ b e) →
      SmilePendingInv b (runEvsStale sqrtQ s evs) ∧
        smileCands (runEvsStale sqrtQ s evs).rawLog = smileCands s.rawLog := by
  induction evs with
  | nil => exact fun s hinv _ => ⟨hinv, rfl⟩
  | cons e rest ih =>
    intro s hinv hev
    have hstep := smile_pending_step sqrtQ b hb s hinv e
      (hev e (List.mem_cons_self e rest))
    have hrest := ih (stepEvStale sqrtQ s e) hstep.1
      (fun e' he' => hev e' (List.mem_cons_of_mem e he'))
    exact ⟨hrest.1, by
      rw [runEvsStale] at *
      simp only [List.foldl_cons]
      rw [hrest.2, hstep.2]⟩

/-- C7 (amended): with a captured baseline, an above-threshold frame arms
the smile (isSmiling, start time) and further above-threshold frames keep
the flag and the start time; once the width has stayed above
baseline × 1.15 for at least SMILE_DURATION = 1200 ms a single yes
candidate is submitted, setting the pending guard.  The guard blocks
resubmission only until the hold timer fires: in a running session —
whose detect loop and handleGestureResponse read a stale closure capture
of isDetectionActive and therefore never notice
setIsDetectionActive(false) — above-threshold events between submission
and the hold firing add no further smile candidate, but the firing clears
every pending response while leaving the smile armed, so the next
above-threshold frame submits yes again: one yes per ~800 ms hold
window, not one per sustained smile.  A width at or below the threshold
while the flag is set and no response is pending submits a no candidate
and clears the flag. -/
theorem c7_smile_once_per_window (sqrtQ : ℚ → ℚ) (f : Frame) (t : ℤ)
    (s : EngineState) (w : ℚ) (b : ℚ) (evs : List Ev) (sB : EngineState)
    (tm : HoldTimer) :
    (mouthWidthOf sqrtQ f = some w → s.neutralMouthWidth ≠ 0 →
      w > s.neutralMouthWidth * (115 / 100) → s.isSmiling = false →
      detectSmile sqrtQ f t s = { s with isSmiling := true, smileStartTime := t }) ∧
      (mouthWidthOf sqrtQ f = some w → s.neutralMouthWidth ≠ 0 →
        w > s.neutralMouthWidth * (115 / 100) → s.isSmiling = true →
        (detectSmile sqrtQ f t s).isSmiling = true ∧
          (detectSmile sqrtQ f t s).smileStartTime = s.smileStartTime) ∧
      (mouthWidthOf sqrtQ f = some w → s.neutralMouthWidth ≠ 0 →
        w > s.neutralMouthWidth * (115 / 100) → s.isSmiling = true →
        t - s.smileStartTime ≥ 1200 → s.pendingSmileResponse = none →
        (detectSmile sqrtQ f t s).rawLog = s.rawLog ++ [⟨.yes, .smile, t⟩] ∧
          (detectSmile sqrtQ f t s).pendingSmileResponse = some .yes) ∧
      (b ≠ 0 → SmilePendingInv b sB → (∀ e ∈ evs, SmileSustainEv sqrtQ b e) →
        smileCands (runEvsStale sqrtQ sB evs).rawLog = smileCands sB.rawLog) ∧
      (sB.holdTimers = [tm] →
        (fireHoldStale tm.id sB).finalLog = sB.finalLog ++ [tm.resp] ∧
          (fireHoldStale tm.id sB).pendingSmileResponse = none ∧
          (fireHoldStale tm.id sB).isSmiling = sB.isSmiling ∧
          (fireHoldStale tm.id sB).smileStartTime = sB.smileStartTime ∧
          (fireHoldStale tm.id sB).neutralMouthWidth = sB.neutralMouthWidth) ∧
      (mouthWidthOf sqrtQ f = some w → s.neutralMouthWidth ≠ 0 →
        ¬(w > s.neutralMouthWidth * (115 / 100)) → s.isSmiling = true →
        s.pendingSmileResponse = none →
        (detectSmile sqrtQ f t s).rawLog = s.rawLog ++ [⟨.no, .smile, t⟩] ∧
          (detectSmile sqrtQ f t s).isSmiling = false) := by
  refine ⟨?_, ?_, ?_, ?_, ?_, ?_⟩
  · intro hw hnz hgt hsm
    rw [detectSmile, hw]
    simp only [smileCore, if_neg hnz, if_pos (And.intro hgt hsm)]
  · intro hw hnz hgt hsm
    rw [detectSmile, hw]
    have hneg1 : ¬(w > s.neutralMouthWidth * (115 / 100) ∧ s.isSmiling = false) := by
      rintro ⟨-, hc⟩
      rw [hsm] at hc
      exact Bool.noConfusion hc
    simp only [smileCore, if_neg hnz, if_neg hneg1, if_pos (And.intro hgt hsm)]
    split_ifs <;>
      simp [processGestureResponse, setPending, clearGestureTimeout, hsm]
  · intro hw hnz hgt hsm hd hp
    rw [detectSmile, hw]
    have hneg1 : ¬(w > s.neutralMouthWidth * (115 / 100) ∧ s.isSmiling = false) := by
      rintro ⟨-, hc⟩
      rw [hsm] at hc
      exact Bool.noConfusion hc
    simp only [smileCore, if_neg hnz, if_neg hneg1, if_pos (And.intro hgt hsm),
      if_pos (And.intro hd hp)]
    constructor
    · rw [processGestureResponse_rawLog]
    · simp [processGestureResponse, setPending, clearGestureTimeout]
  · intro hb hinv hev
    exact (smile_pending_run sqrtQ b hb evs sB hinv hev).2
  · intro hA
    obtain ⟨h1, h2, h3, h4, h5, h6⟩ := fireHoldStale_singleton tm sB hA
    exact ⟨h1, h2, h4, h5, h6⟩
  · intro hw hnz hle hsm hp
    rw [detectSmile, hw]
    have hneg1 : ¬(w > s.neutralMouthWidth * (115 / 100) ∧ s.isSmiling = false) := by
      rintro ⟨hc, -⟩
      exact hle hc
    have hneg2 : ¬(w > s.neutralMouthWidth * (115 / 100) ∧ s.isSmiling = true) := by
      rintro ⟨hc, -⟩
      exact hle hc
    simp only [smileCore, if_neg hnz, if_neg hneg1, if_neg hneg2,
      if_pos (And.intro hsm hp)]
    constructor
    · simp [processGestureResponse_rawLog]
    · simp [processGestureResponse, setPending, clearGestureTimeout]

/-- Witness for the amended C7 at concrete inputs: fullFrame measures
width 4.  With baseline 2 (threshold 2.3) an unarmed state arms; an armed
state with the smile sustained for 1300 ms submits one yes; a subsequent
above-threshold frame while the yes is pending submits nothing; firing
the pending hold timer emits the FinalSignal and clears the guard while
the smile stays armed; and with baseline 40 (threshold 46) the same
width retracts an armed smile with a no. -/
theorem c7_smile_once_per_window_witness :
    detectSmile (fun x => x) fullFrame 100 { initEngine with neutralMouthWidth := 2 }
        = { initEngine with
            neutralMouthWidth := 2, isSmiling := true, smileStartTime := 100 } ∧
      (detectSmile (fun x => x) fullFrame 1300
          { initEngine with
            neutralMouthWidth := 2, isSmiling := true, smileStartTime := 0 }).rawLog
        = [⟨.yes, .smile, 1300⟩] ∧
      smileCands (runEvsStale (fun x => x)
          { initEngine with
            neutralMouthWidth := 2, isSmiling := true, smileStartTime := 0,
            pendingSmileResponse := some .yes, isDetectionActive := true,
            rawLog := [⟨.yes, .smile, 1300⟩] }
          [.evFrame fullFrame 1400]).rawLog
        = smileCands [⟨.yes, .smile, 1300⟩] ∧
      (fireHoldStale 1
          { initEngine with
            neutralMouthWidth := 2, isSmiling := true, smileStartTime := 100,
            pendingSmileResponse := some .yes,
            holdTimers := [⟨1, 2100, .yes, .smile⟩], gestureTimeoutRef := some 1,
            nextId := 2, rawLog := [⟨.yes, .smile, 1300⟩] }).finalLog
        = [.yes] ∧
      (fireHoldStale 1
          { initEngine with
            neutralMouthWidth := 2, isSmiling := true, smileStartTime := 100,
            pendingSmileResponse := some .yes,
            holdTimers := [⟨1, 2100, .yes, .smile⟩], gestureTimeoutRef := some 1,
            nextId := 2, rawLog := [⟨.yes, .smile, 1300⟩] }).pendingSmileResponse
        = none ∧
      (fireHoldStale 1
          { initEngine with
            neutralMouthWidth := 2, isSmiling := true, smileStartTime := 100,
            pendingSmileResponse := some .yes,
            holdTimers := [⟨1, 2100, .yes, .smile⟩], gestureTimeoutRef := some 1,
            nextId := 2, rawLog := [⟨.yes, .smile, 1300⟩] }).isSmiling
        = true ∧
      (detectSmile (fun x => x) fullFrame 2000
          { initEngine with neutralMouthWidth := 40, isSmiling := true }).rawLog
        = [⟨.no, .smile, 2000⟩] := by
  have hc := c7_smile_once_per_window (fun x => x) fullFrame 100
    { initEngine with neutralMouthWidth := 2 } 4 2 [.evFrame fullFrame 1400]
    { initEngine with
      neutralMouthWidth := 2, isSmiling := true, smileStartTime := 0,
      pendingSmileResponse := some .yes, isDetectionActive := true,
      rawLog := [⟨.yes, .smile, 1300⟩] }
    ⟨1, 2100, .yes, .smile⟩
  have hf := (c7_smile_once_per_window (fun x => x) fullFrame 0 initEngine 0 1 []
    { initEngine with
      neutralMouthWidth := 2, isSmiling := true, smileStartTime := 100,
      pendingSmileResponse := some .yes,
      holdTimers := [⟨1, 2100, .yes, .smile⟩], gestureTimeoutRef := some 1,
      nextId := 2, rawLog := [⟨.yes, .smile, 1300⟩] }
    ⟨1, 2100, .yes, .smile⟩).2.2.2.2.1 rfl
  refine ⟨?_, ?_, ?_, ?_, ?_, ?_, ?_⟩
  · have h := hc.1 fullFrame_width (by norm_num [initEngine])
      (by norm_num [initEngine]) rfl
    rw [h]
  · have h := (c7_smile_once_per_window (fun x => x) fullFrame 1300
      { initEngine with
        neutralMouthWidth := 2, isSmiling := true, smileStartTime := 0 } 4 2 []
      initEngine ⟨1, 0, .yes, .smile⟩).2.2.1
      fullFrame_width (by norm_num [initEngine]) (by norm_num [initEngine]) rfl
      (by norm_num [initEngine]) rfl
    rw [h.1]
    norm_num [initEngine]
  · have h := hc.2.2.2.1 (by norm_num)
      (by exact ⟨rfl, rfl⟩)
      (by
        intro e he
        simp at he
        subst he
        exact ⟨4, fullFrame_width, by norm_num⟩)
    rw [h]
  · rw [hf.1]
    norm_num [initEngine]
  · exact hf.2.1
  · rw [hf.2.2.1]
  · have h := (c7_smile_once_per_window (fun x => x) fullFrame 2000
      { initEngine with neutralMouthWidth := 40, isSmiling := true } 4 40 []
      initEngine ⟨1, 0, .yes, .smile⟩).2.2.2.2.2
      fullFrame_width (by norm_num [initEngine]) (by norm_num [initEngine]) rfl rfl
    rw [h.1]
    norm_num [initEngine]

end BlinkSpeak
